import Mathlib

/-!
Verification of the avatar profile persistence and normalization pipeline
(`backend-copy/avatar/routes.py` and `backend-copy/avatar/repository.py`).

Modelling conventions:
* Python numbers (int/float) are modelled as `ℚ`; `float(x)` on a number is the
  identity.  A Python `bool` passes `isinstance(x, (int, float))` and converts
  to `1.0` / `0.0`, which the model reproduces.
* Python `str.strip` / `str.lower` / `str.replace` are modelled by `pyStrip`,
  `pyLower` and structural character-list rewriting.
* JSON payloads are the inductive `Json`; Python dicts are association lists in
  insertion order, with `dictInsert` reproducing dict assignment (update keeps
  the position of an existing key, a new key is appended).
* `dict.get(k)` returns Python `None` both for a missing key and an explicit
  JSON null; `Json.getD` returns `Json.null` in both cases, matching this.
* Timestamps are `ℕ`; `datetime.now()` / SQL `NOW()` is an explicit `now`
  parameter, `uuid.uuid4()` an explicit `freshId` parameter.
-/

namespace Fitspace

/-- Python whitespace test used by `str.strip` (ASCII whitespace suffices for
the strings handled by this service). -/
def isPySpace (c : Char) : Bool :=
  c = ' ' || c = '\t' || c = '\n' || c = '\r' || c = '\x0b' || c = '\x0c'

/-- Strip `isPySpace` characters from both ends of a character list. -/
def pyStripList (l : List Char) : List Char :=
  ((l.dropWhile isPySpace).reverse.dropWhile isPySpace).reverse

/-- Model of Python `str.strip()`. -/
def pyStrip (s : String) : String := ⟨pyStripList s.data⟩

/-- Model of Python `str.lower()` (ASCII lowering). -/
def pyLower (s : String) : String := ⟨s.data.map Char.toLower⟩

/-- Python dict assignment `d[k] = v` on an association list (keys are unique,
as in a Python dict): an existing key keeps its position and gets the new
value, a new key is appended. -/
def dictInsert {α : Type} : List (String × α) → String → α → List (String × α)
  | [], k, v => [(k, v)]
  | p :: rest, k, v =>
      if p.1 = k then (k, v) :: rest else p :: dictInsert rest k v

/-- JSON-like values as delivered by `request.get_json()`. -/
inductive Json where
  | null
  | bool (b : Bool)
  | num (q : ℚ)
  | str (s : String)
  | arr (items : List Json)
  | obj (fields : List (String × Json))

/-- Python `payload.get(k)`: `Json.null` for a missing key, and an explicit
JSON null is indistinguishable from a missing key (both are Python `None`). -/
def Json.getD (fields : List (String × Json)) (k : String) : Json :=
  match fields.lookup k with
  | some v => v
  | none => Json.null

/-- Python `k in payload` (key containment, unlike `.get` this sees explicit
nulls). -/
def Json.hasKey (fields : List (String × Json)) (k : String) : Bool :=
  fields.any (fun p => p.1 = k)

/-- Model of Python `str(x)` for the JSON values that can reach it.  Only the
string case matters for the repository claims; the other cases are a
deterministic stand-in for CPython's rendering. -/
def pyStr : Json → String
  | .str s => s
  | .bool true => ("True")
  | .bool false => ("False")
  | .num q => toString q
  | .null => ("None")
  | .arr _ => ("[...]")
  | .obj _ => ("\x7b...\x7d")

instance exceptDecEq {ε α : Type} [DecidableEq ε] [DecidableEq α] :
    DecidableEq (Except ε α) := fun x y =>
  match x, y with
  | .ok a, .ok b =>
      if h : a = b then .isTrue (by rw [h]) else .isFalse (by simp [h])
  | .error a, .error b =>
      if h : a = b then .isTrue (by rw [h]) else .isFalse (by simp [h])
  | .ok _, .error _ => .isFalse (fun h => Except.noConfusion h)
  | .error _, .ok _ => .isFalse (fun h => Except.noConfusion h)

/-- Errors surfaced by `flask.abort` in `routes.py`. -/
inductive ApiError where
  | badRequest (description : String)
  | notFound (description : String)
  | conflict (description : String)
  deriving DecidableEq

/-- Typed repository errors (`repository.py`); `invalidId` models the
`ValueError` escaping `uuid.UUID`. -/
inductive RepoError where
  | notFound
  | duplicateName
  | quotaExceeded
  | invalidId
  deriving DecidableEq

def _ALLOWED_GENDERS : List String :=
  [("female"), ("male"), ("non_binary"), ("unspecified")]

def _AGE_RANGE_UI_LABELS : List String :=
  [("15-19"), ("20-29"), ("30-39"), ("40-49"), ("50-59"), ("60-69"),
   ("70-79"), ("80-89"), ("90-99")]

def _ALLOWED_AGE_RANGES : List String :=
  [("child"), ("teen"), ("young_adult"), ("adult"), ("mature"), ("senior")] ++
    _AGE_RANGE_UI_LABELS.map pyLower

def _ALLOWED_CREATION_MODES : List String :=
  [("manual"), ("scan"), ("preset"), ("import")]

def _ALLOWED_SOURCES : List String :=
  [("web"), ("ios"), ("android"), ("kiosk"), ("api"), ("integration")]

/-- Lexicographic comparison of character lists by code point, the model of
Python string comparison (`sorted`, `<`). -/
def listLeB : List Char → List Char → Bool
  | [], _ => true
  | _ :: _, [] => false
  | a :: as, b :: bs =>
      if a = b then listLeB as bs else decide (a.toNat < b.toNat)

/-- Boolean string comparison used to model Python `sorted` on strings. -/
def strLeB (a b : String) : Bool := listLeB a.data b.data

/-- Propositional form of `strLeB`, for `List.insertionSort` (the model of
Python `sorted`). -/
def strLe (a b : String) : Prop := strLeB a b = true

instance strLeDecidable : DecidableRel strLe :=
  fun a b => instDecidableEqBool (strLeB a b) true

/-- Python `", ".join(sorted(xs))`. -/
def joinSorted (xs : List String) : String :=
  String.intercalate (", ") (List.insertionSort strLe xs)

/-- `routes._normalize_enum`. -/
def normalizeEnum (value : Json) (field : String) (allowed : List String) :
    Except ApiError (Option String) :=
  match value with
  | .null => .ok none
  | .str s =>
      let normalized := pyLower (pyStrip s)
      if normalized = ("") then .ok none
      else if normalized ∈ allowed then .ok (some normalized)
      else .error (.badRequest (field ++ (" must be one of: ") ++ joinSorted allowed ++ (".")))
  | _ => .error (.badRequest (field ++ (" must be a string.")))

/-- `routes._normalize_optional_string`. -/
def normalizeOptionalString (value : Json) (field : String) :
    Except ApiError (Option String) :=
  match value with
  | .null => .ok none
  | .str s =>
      let normalized := pyStrip s
      .ok (if normalized = ("") then none else some normalized)
  | _ => .error (.badRequest (field ++ (" must be a string.")))

/-- `routes._normalize_creation_mode`. -/
def normalizeCreationMode (value : Json) : Except ApiError (Option String) :=
  normalizeEnum value ("creationMode") _ALLOWED_CREATION_MODES

/-- `routes._normalize_optional_float`.  Python `isinstance(v, (int, float))`
is true for `bool`, so JSON booleans coerce to `1.0` / `0.0`. -/
def normalizeOptionalFloat (value : Json) (field : String) :
    Except ApiError (Option ℚ) :=
  match value with
  | .null => .ok none
  | .num q => .ok (some q)
  | .bool b => .ok (some (if b then 1 else 0))
  | _ => .error (.badRequest (field ++ (" must be a number.")))

/-- `routes._normalize_float`. -/
def normalizeFloat (value : Json) (field : String) : Except ApiError ℚ := do
  match ← normalizeOptionalFloat value field with
  | some q => .ok q
  | none => .error (.badRequest (field ++ (" must be a number.")))

/-- Normalized `quickModeSettings` as produced by
`routes._normalize_quick_mode_settings`: the source dict contains the keys
`bodyShape` / `athleticLevel` / `measurements` only when truthy; here an
absent key is `none` / `[]`. -/
structure QuickModeSettings where
  bodyShape : Option String := none
  athleticLevel : Option String := none
  measurements : List (String × ℚ) := []
  deriving DecidableEq

/-- A normalized morph-target entry as built by
`routes._normalize_morph_entry`: the source dict holds `backendKey`,
`sliderValue`/`value` and `unrealValue` only when set; `none` models an
absent key. -/
structure MorphEntry where
  id : String
  backendKey : Option String := none
  sliderValue : Option ℚ := none
  value : Option ℚ := none
  unrealValue : Option ℚ := none
  deriving DecidableEq

/-- Python `isinstance(value, (int, float))` followed by `float(value)`
(`bool` is an `int` subclass, so booleans coerce to `1.0` / `0.0`). -/
def pyFloatOfNum : Json → Option ℚ
  | .num q => some q
  | .bool b => some (if b then 1 else 0)
  | _ => none

/-- Helper for the normalization loop over one measurement section in
`routes._normalize_measurements` (the `for key, value in section.items()`
body; JSON object keys are always strings, so the `isinstance(key, str)`
guard cannot fire). -/
def normalizeMeasurementsLoop (sectionName : String) :
    List (String × Json) → List (String × ℚ) → List (String × String) →
    Except ApiError (List (String × ℚ) × List (String × String))
  | [], normalized, statuses => .ok (normalized, statuses)
  | (key, value) :: rest, normalized, statuses =>
      if key = ("creationMode") then
        match normalizeCreationMode value with
        | .error e => .error e
        | .ok (some status) =>
            normalizeMeasurementsLoop sectionName rest normalized
              (dictInsert statuses key status)
        | .ok none => normalizeMeasurementsLoop sectionName rest normalized statuses
      else
        match pyFloatOfNum value with
        | some q =>
            normalizeMeasurementsLoop sectionName rest
              (dictInsert normalized key q) statuses
        | none =>
            .error (.badRequest (("Measurement \x27") ++ key ++ ("\x27 in ") ++
              sectionName ++ (" must be a number.")))

/-- `routes._normalize_measurements`.  Returns the numeric mapping and the
status mapping (at most the key `creationMode`). -/
def normalizeMeasurements (sectionJson : Json) (sectionName : String) :
    Except ApiError (List (String × ℚ) × List (String × String)) :=
  match sectionJson with
  | .null => .ok ([], [])
  | .obj fields => normalizeMeasurementsLoop sectionName fields [] []
  | _ => .error (.badRequest (sectionName ++ (" must be an object of numeric values.")))

/-- String sub-field normalization in `routes._normalize_quick_mode_settings`:
`value.strip().lower().replace(" ", "_") or None`. -/
def normalizeQmsString (s : String) : Option String :=
  let normalized : String :=
    ⟨(pyLower (pyStrip s)).data.map (fun c => if c = ' ' then Char.ofNat 95 else c)⟩
  if normalized = ("") then none else some normalized

/-- Loop over `quickModeSettings.measurements` items. -/
def normalizeQmsMeasurementsLoop :
    List (String × Json) → List (String × ℚ) →
    Except ApiError (List (String × ℚ))
  | [], acc => .ok acc
  | (key, value) :: rest, acc =>
      let normalizedKey := pyStrip key
      if normalizedKey = ("") then
        .error (.badRequest ("quickModeSettings.measurements keys must not be empty."))
      else
        match normalizeFloat value
            (("quickModeSettings.measurements[\x27") ++ normalizedKey ++ ("\x27]")) with
        | .error e => .error e
        | .ok q => normalizeQmsMeasurementsLoop rest (dictInsert acc normalizedKey q)

/-- `routes._normalize_quick_mode_settings`. -/
def normalizeQuickModeSettings (payload : Json) :
    Except ApiError (Option QuickModeSettings) :=
  match payload with
  | .null => .ok none
  | .obj fields =>
      let allowedKeys : List String := [("bodyShape"), ("athleticLevel"), ("measurements")]
      let unexpected := (fields.map Prod.fst).filter (fun k => k ∉ allowedKeys)
      if unexpected ≠ [] then
        .error (.badRequest (("quickModeSettings contains unsupported fields: ") ++
          joinSorted unexpected ++ (".")))
      else do
        let bodyShape ← match Json.getD fields ("bodyShape") with
          | .null => .ok none
          | .str s => .ok (normalizeQmsString s)
          | _ => .error (.badRequest ("quickModeSettings.bodyShape must be a string."))
        let athleticLevel ← match Json.getD fields ("athleticLevel") with
          | .null => .ok none
          | .str s => .ok (normalizeQmsString s)
          | _ => .error (.badRequest ("quickModeSettings.athleticLevel must be a string."))
        let measurements ← match Json.getD fields ("measurements") with
          | .null => .ok []
          | .obj mfields => normalizeQmsMeasurementsLoop mfields []
          | _ => .error (.badRequest ("quickModeSettings.measurements must be an object of numbers."))
        let result : QuickModeSettings :=
          { bodyShape := bodyShape, athleticLevel := athleticLevel,
            measurements := measurements }
        if bodyShape = none ∧ athleticLevel = none ∧ measurements = [] then
          .ok none
        else
          .ok (some result)
  | _ => .error (.badRequest ("quickModeSettings must be an object."))

/-- The `backendKey` handling inside the dict branch of
`_normalize_morph_entry`: stringify if needed, strip, empty becomes `None`. -/
def morphBackendKey (fields : List (String × Json)) : Option String :=
  match Json.getD fields ("backendKey") with
  | .null => none
  | v =>
      let b := pyStrip (pyStr v)
      if b = ("") then none else some b

/-- The slider candidate inside the dict branch of `_normalize_morph_entry`:
`sliderValue`, falling back to `value` when the former is `None` and the
latter key exists. -/
def morphSliderCandidate (fields : List (String × Json)) : Json :=
  match Json.getD fields ("sliderValue") with
  | .null =>
      if Json.hasKey fields ("value") then Json.getD fields ("value")
      else Json.null
  | v => v

/-- The `raw_value` dispatch of `_normalize_morph_entry`, yielding
`(backend_key, slider_value, unreal_value)`. -/
def morphRawValues (idStr : String) (rawValue : Json) :
    Except ApiError (Option String × Option ℚ × Option ℚ) :=
  match rawValue with
  | .obj fields =>
      match normalizeOptionalFloat (morphSliderCandidate fields)
          (("morphTargets[") ++ idStr ++ ("].sliderValue")) with
      | .error e => .error e
      | .ok sliderValue =>
          match normalizeOptionalFloat (Json.getD fields ("unrealValue"))
              (("morphTargets[") ++ idStr ++ ("].unrealValue")) with
          | .error e => .error e
          | .ok unrealValue => .ok (morphBackendKey fields, sliderValue, unrealValue)
  | .num q => .ok (none, some q, none)
  | .bool b => .ok (none, some (if b then (1 : ℚ) else 0), none)
  | .null => .ok (none, none, none)
  | _ =>
      .error (.badRequest ("Morph targets must be numbers or objects containing sliderValue/unrealValue."))

/-- The entry dict assembly at the end of `_normalize_morph_entry` (a key is
set only when the value is present/truthy; `value` mirrors `sliderValue`). -/
def buildMorphEntry (idStr : String)
    (values : Option String × Option ℚ × Option ℚ) : MorphEntry :=
  { id := idStr,
    backendKey := match values.1 with
      | some b => if b ≠ ("") then some b else none
      | none => none,
    sliderValue := values.2.1,
    value := values.2.1,
    unrealValue := values.2.2 }

/-- `routes._normalize_morph_entry`. -/
def normalizeMorphEntry (morphId : Json) (rawValue : Json) :
    Except ApiError MorphEntry :=
  match morphId with
  | .null => .error (.badRequest ("Morph targets require an \x27id\x27."))
  | _ =>
    let idStr := pyStrip (pyStr morphId)
    if idStr = ("") then
      .error (.badRequest ("Morph target ids must not be empty."))
    else
      match morphRawValues idStr rawValue with
      | .error e => .error e
      | .ok values => .ok (buildMorphEntry idStr values)

/-- The duplicate-id collapse in `routes._normalize_morph_targets`:
`collapsed[item["id"]] = item` over all items. -/
def collapseMorphs (items : List MorphEntry) : List (String × MorphEntry) :=
  items.foldl (fun acc item => dictInsert acc item.id item) []

/-- Comparator for the final key sort in `routes._normalize_morph_targets`. -/
def morphKeyLe (a b : String × MorphEntry) : Prop := strLe a.1 b.1

instance morphKeyLeDecidable : DecidableRel morphKeyLe :=
  fun a b => strLeDecidable a.1 b.1

/-- One list entry inside `routes._normalize_morph_targets` (dict entries need
an `id`; two-element lists are `(id, value)` pairs). -/
def normalizeMorphListEntry (entry : Json) : Except ApiError MorphEntry :=
  match entry with
  | .obj fields =>
      match Json.getD fields ("id") with
      | .null => .error (.badRequest ("Morph targets must include an \x27id\x27."))
      | morphId => normalizeMorphEntry morphId entry
  | .arr [a, b] => normalizeMorphEntry a b
  | _ => .error (.badRequest ("Morph targets must be provided as objects with id/value data."))

/-- A `for`-loop appending normalized entries, aborting on the first
failure (the accumulation pattern of `_normalize_morph_targets`). -/
def mapExcept {α β : Type} (f : α → Except ApiError β) :
    List α → Except ApiError (List β)
  | [] => .ok []
  | a :: rest =>
      match f a with
      | .error e => .error e
      | .ok b =>
          match mapExcept f rest with
          | .error e => .error e
          | .ok bs => .ok (b :: bs)

/-- `routes._normalize_morph_targets`. -/
def normalizeMorphTargets (payload : Json) : Except ApiError (List MorphEntry) := do
  let items ←
    match payload with
    | .null => pure []
    | .obj fields =>
        mapExcept (fun p => normalizeMorphEntry (.str p.1) p.2) fields
    | .arr entries => mapExcept normalizeMorphListEntry entries
    | _ =>
        .error (.badRequest ("Morph targets must be provided as an object or list of objects."))
  .ok ((List.insertionSort morphKeyLe (collapseMorphs items)).map Prod.snd)

/-- The validated profile mutation: exactly the keyword arguments that
`routes._apply_payload` passes to `repository.create_avatar` /
`repository.update_avatar`. -/
structure Mutation where
  name : String
  gender : Option String := none
  ageRange : Option String := none
  creationMode : Option String := none
  source : Option String := none
  quickMode : Bool := false
  createdBySession : Option String := none
  basicMeasurements : List (String × ℚ) := []
  bodyMeasurements : List (String × ℚ) := []
  morphTargets : List MorphEntry := []
  quickModeSettings : Option QuickModeSettings := none
  deriving DecidableEq

/-- The `quickMode` resolution in `routes._apply_payload` (lines 287-293):
explicit boolean OR settings-present, non-boolean rejected.  A route-normalized
`quick_mode_settings` is `None` or a non-empty dict, so Python
`bool(quick_mode_settings)` is `isSome`. -/
def resolveQuickMode (quickModeValue : Json)
    (quickModeSettings : Option QuickModeSettings) : Except ApiError Bool :=
  match quickModeValue with
  | .null => .ok quickModeSettings.isSome
  | .bool b => .ok (b || quickModeSettings.isSome)
  | _ => .error (.badRequest ("quickMode must be a boolean value."))

/-- The normalization phase of `routes._apply_payload`: everything before the
repository call, in source order (so an earlier field error wins). -/
def normalizePayload (payload : Json) : Except ApiError Mutation :=
  match payload with
  | .obj fields => do
      let nameJson := Json.getD fields ("name")
      match nameJson with
      | .null => pure ()
      | .str _ => pure ()
      | _ => .error (.badRequest ("Avatar name must be a string."))
      let gender ← normalizeEnum (Json.getD fields ("gender")) ("gender") _ALLOWED_GENDERS
      let ageRange ← normalizeEnum (Json.getD fields ("ageRange")) ("ageRange") _ALLOWED_AGE_RANGES
      let creationMode ← normalizeCreationMode (Json.getD fields ("creationMode"))
      let source ← normalizeEnum (Json.getD fields ("source")) ("source") _ALLOWED_SOURCES
      let quickModeSettings ← normalizeQuickModeSettings (Json.getD fields ("quickModeSettings"))
      let quickMode ← resolveQuickMode (Json.getD fields ("quickMode")) quickModeSettings
      let createdBySession ← normalizeOptionalString (Json.getD fields ("createdBySession"))
        ("createdBySession")
      let (basicMeasurements, basicStatuses) ←
        normalizeMeasurements (Json.getD fields ("basicMeasurements")) ("basicMeasurements")
      let (bodyMeasurements, bodyStatuses) ←
        normalizeMeasurements (Json.getD fields ("bodyMeasurements")) ("bodyMeasurements")
      -- The source filters `None` values out of the status dicts; the loop
      -- above never stores one, so the filter is the identity here.
      let measurementCreationMode :=
        match basicStatuses.lookup ("creationMode") with
        | some v => some v
        | none => bodyStatuses.lookup ("creationMode")
      let creationMode ←
        match measurementCreationMode with
        | none => pure creationMode
        | some m =>
            match creationMode with
            | some c =>
                if c ≠ m then
                  .error (.badRequest ("creationMode provided in measurements does not match the top-level value."))
                else pure (some m)
            | none => pure (some m)
      let morphTargets ← normalizeMorphTargets (Json.getD fields ("morphTargets"))
      let avatarName := match nameJson with
        | .str s => s
        | _ => ("")
      .ok { name := avatarName, gender, ageRange, creationMode, source,
            quickMode, createdBySession, basicMeasurements, bodyMeasurements,
            morphTargets, quickModeSettings }
  | _ => .error (.badRequest ("Request payload must be a JSON object."))

/-- Canonical UUID string (lowercase hyphenated form); `uuid.uuid4()` values
and the `avatars.id` column. -/
abbrev Uuid := String

/-- Hex-digit test for the UUID parser. -/
def isHexChar (c : Char) : Bool :=
  c.isDigit || ((Char.ofNat 97) ≤ c && c ≤ (Char.ofNat 102)) ||
    ((Char.ofNat 65) ≤ c && c ≤ (Char.ofNat 70))

/-- Curly-brace test (`str.strip` with the brace characters). -/
def isBraceChar (c : Char) : Bool := c.toNat = 123 || c.toNat = 125

/-- Remove the `urn:` / `uuid:` marker substrings, as the two `replace`
calls in `uuid.UUID` do (modelled as one left-to-right pass). -/
def removeUrnMarkers : List Char → List Char
  | 'u' :: 'r' :: 'n' :: ':' :: rest => removeUrnMarkers rest
  | 'u' :: 'u' :: 'i' :: 'd' :: ':' :: rest => removeUrnMarkers rest
  | c :: rest => c :: removeUrnMarkers rest
  | [] => []

/-- Re-insert hyphens into 32 lowercase hex digits (8-4-4-4-12), the canonical
form produced by `str(uuid.UUID(...))`. -/
def canonicalHex (l : List Char) : String :=
  ⟨l.take 8⟩ ++ ("-") ++ ⟨(l.drop 8).take 4⟩ ++ ("-") ++ ⟨(l.drop 12).take 4⟩ ++
    ("-") ++ ⟨(l.drop 16).take 4⟩ ++ ("-") ++ ⟨l.drop 20⟩

/-- Model of the CPython `uuid.UUID(hex=s)` constructor: drop `urn:` /
`uuid:`, strip braces, drop hyphens, then require exactly 32 hex digits;
`none` models the `ValueError` raised otherwise. -/
def parseUuid (s : String) : Option Uuid :=
  let h := removeUrnMarkers s.data
  let h := ((h.dropWhile isBraceChar).reverse.dropWhile isBraceChar).reverse
  let digits := h.filter (fun c => ¬ c.toNat = 45)
  if digits.length = 32 ∧ digits.all isHexChar then
    some (canonicalHex (digits.map Char.toLower))
  else
    none

/-- Row of the `users` table. -/
structure UserRow where
  id : String
  email : Option String := none
  sessionId : Option String := none
  issuedAt : Option ℕ := none
  expiresAt : Option ℕ := none
  accessToken : Option String := none
  refreshToken : Option String := none
  updatedAt : Option ℕ := none
  deriving DecidableEq

/-- The resolved identity tuple handed to the repository as `user_context`. -/
structure UserContext where
  email : Option String := none
  sessionId : Option String := none
  issuedAt : Option ℕ := none
  expiresAt : Option ℕ := none
  accessToken : Option String := none
  refreshToken : Option String := none
  deriving DecidableEq

/-- Row of the `avatars` header table. -/
structure AvatarRow where
  id : Uuid
  userId : String
  name : String
  slot : ℕ
  gender : Option String := none
  ageRange : Option String := none
  creationMode : Option String := none
  source : Option String := none
  quickMode : Option Bool := none
  createdBySession : Option String := none
  createdAt : ℕ := 0
  updatedAt : ℕ := 0
  deriving DecidableEq

/-- Row of `avatar_morph_targets`. -/
structure MorphRow where
  avatarId : Uuid
  morphId : String
  backendKey : Option String := none
  sliderValue : Option ℚ := none
  unrealValue : Option ℚ := none
  updatedAt : ℕ := 0
  deriving DecidableEq

/-- Row of `avatar_quickmode_settings` (`measurements` is a JSON column and
may be SQL NULL; the timestamps may be NULL, which the read side probes with
`isinstance(..., datetime)`). -/
structure QmsRow where
  avatarId : Uuid
  bodyShape : Option String := none
  athleticLevel : Option String := none
  measurements : Option (List (String × Json)) := none
  createdAt : Option ℕ := none
  updatedAt : Option ℕ := none

/-- The persisted state: the six tables owned by the repository. -/
structure Db where
  users : List UserRow := []
  avatars : List AvatarRow := []
  basicMeasurements : List (Uuid × String × ℚ) := []
  bodyMeasurements : List (Uuid × String × ℚ) := []
  morphTargets : List MorphRow := []
  morphDefinitions : List (String × Option String) := []
  quickModeSettings : List QmsRow := []

/-- The `_connection` context manager of `repository.py`: run the body on one
connection as a single transaction, commit the resulting state on success,
roll back to the entry state on any exception. -/
def runTxn {ε α : Type} (inner : Db → Except ε (Db × α)) (db : Db) :
    Except ε α × Db :=
  match inner db with
  | .ok (db2, a) => (.ok a, db2)
  | .error e => (.error e, db)

/-- `repository._ensure_user`: insert-if-absent without a context, full
upsert (last write wins, `updated_at = NOW()`) with one. -/
def ensureUser (now : ℕ) (userId : String) (userContext : Option UserContext)
    (db : Db) : Db :=
  match userContext with
  | none =>
      if db.users.any (fun u => u.id = userId) then db
      else { db with users := db.users ++ [{ id := userId }] }
  | some ctx =>
      let newRow : UserRow :=
        { id := userId, email := ctx.email, sessionId := ctx.sessionId,
          issuedAt := ctx.issuedAt, expiresAt := ctx.expiresAt,
          accessToken := ctx.accessToken, refreshToken := ctx.refreshToken,
          updatedAt := some now }
      if db.users.any (fun u => u.id = userId) then
        { db with users := db.users.map (fun u => if u.id = userId then newRow else u) }
      else
        { db with users := db.users ++ [newRow] }

/-- Slots of a user's existing avatars (`SELECT slot FROM avatars WHERE
user_id = ...`). -/
def usedSlots (db : Db) (userId : String) : List ℕ :=
  (db.avatars.filter (fun r => r.userId = userId)).map (fun r => r.slot)

/-- `repository._find_available_slot`: first free slot in 1..5, else the
quota error. -/
def findAvailableSlot (db : Db) (userId : String) : Except RepoError ℕ :=
  match [1, 2, 3, 4, 5].find? (fun s => ! (usedSlots db userId).contains s) with
  | some slot => .ok slot
  | none => .error .quotaExceeded

/-- The morph-map entry recomputed inside `repository._persist_measurements`
(`morph_map[morph_id] = {...}`). -/
structure MorphMapData where
  backendKey : Option String := none
  sliderValue : Option ℚ := none
  unrealValue : Option ℚ := none
  deriving DecidableEq

/-- The `for item in morph_targets` loop of `_persist_measurements`, building
`morph_map` with last-writer-wins dict assignment.  The items arrive as the
dicts built by `_normalize_morph_entry`, here `MorphEntry` (a key is present
iff the field is `some`). -/
def buildMorphMap (morphTargets : List MorphEntry) :
    List (String × MorphMapData) :=
  morphTargets.foldl
    (fun acc item =>
      let morphId := pyStrip item.id
      if morphId = ("") then acc
      else
        let backendKey := match item.backendKey with
          | some b => let b := pyStrip b; if b = ("") then none else some b
          | none => none
        let sliderValue :=
          match item.sliderValue with
          | some q => some q
          | none => item.value
        dictInsert acc morphId
          { backendKey := backendKey, sliderValue := sliderValue,
            unrealValue := item.unrealValue })
    []

/-- The `ON CONFLICT (id) DO UPDATE SET backend_key = COALESCE(...)` upsert
into `morph_definitions`, one record at a time. -/
def upsertMorphDefinition (defs : List (String × Option String))
    (morphId : String) (backendKey : Option String) :
    List (String × Option String) :=
  if defs.any (fun p => p.1 = morphId) then
    defs.map (fun p =>
      if p.1 = morphId then (p.1, match backendKey with
        | some b => some b
        | none => p.2)
      else p)
  else
    defs ++ [(morphId, backendKey)]

/-- `repository._persist_measurements`: unconditional delete-then-insert of
the four satellite sets, plus the shared morph-definition upsert.  The
route-normalized `quick_mode_settings` never carries an `updatedAt` key, so
the stored timestamp is `now`. -/
def persistMeasurements (now : ℕ) (avatarId : Uuid)
    (basic body : List (String × ℚ)) (morphTargets : List MorphEntry)
    (quickModeSettings : Option QuickModeSettings) (db : Db) : Db :=
  let basic := basic.filter (fun p => p.1 ≠ ("creationMode"))
  let body := body.filter (fun p => p.1 ≠ ("creationMode"))
  let db :=
    { db with
      basicMeasurements := db.basicMeasurements.filter (fun r => r.1 ≠ avatarId),
      bodyMeasurements := db.bodyMeasurements.filter (fun r => r.1 ≠ avatarId),
      morphTargets := db.morphTargets.filter (fun r => r.avatarId ≠ avatarId),
      quickModeSettings := db.quickModeSettings.filter (fun r => r.avatarId ≠ avatarId) }
  let db :=
    { db with
      basicMeasurements := db.basicMeasurements ++
        basic.map (fun (p : String × ℚ) => (avatarId, p.1, p.2)),
      bodyMeasurements := db.bodyMeasurements ++
        body.map (fun (p : String × ℚ) => (avatarId, p.1, p.2)) }
  let morphMap := buildMorphMap morphTargets
  let db :=
    { db with
      morphDefinitions :=
        morphMap.foldl (fun defs (p : String × MorphMapData) => upsertMorphDefinition defs p.1 p.2.backendKey)
          db.morphDefinitions,
      morphTargets := db.morphTargets ++
        morphMap.map (fun (p : String × MorphMapData) =>
          ({ avatarId := avatarId, morphId := p.1, backendKey := p.2.backendKey,
             sliderValue := p.2.sliderValue, unrealValue := p.2.unrealValue,
             updatedAt := now } : MorphRow)) }
  match quickModeSettings with
  | none => db
  | some settings =>
      let bodyShape := match settings.bodyShape with
        | some s => let s := pyStrip s; if s = ("") then none else some s
        | none => none
      let athleticLevel := match settings.athleticLevel with
        | some s => let s := pyStrip s; if s = ("") then none else some s
        | none => none
      { db with
        quickModeSettings := db.quickModeSettings ++
          [{ avatarId := avatarId, bodyShape := bodyShape,
             athleticLevel := athleticLevel,
             measurements := some (settings.measurements.map
               (fun (p : String × ℚ) => (p.1, Json.num p.2))),
             createdAt := some now, updatedAt := some now }] }

/-- A morph-target item as rendered by `repository._fetch_measurements`
(`sliderValue` / `value` / `unrealValue` / `backendKey` / `updatedAt` keys are
present only when set; `none` models the absent key). -/
structure FetchedMorph where
  id : String
  backendKey : Option String := none
  sliderValue : Option ℚ := none
  value : Option ℚ := none
  unrealValue : Option ℚ := none
  updatedAt : Option ℕ := none
  deriving DecidableEq

/-- The quick-mode-settings dict rendered by `_fetch_measurements` (an
`updatedAt` of `some t` models the present, truthy ISO-string key). -/
structure FetchedQms where
  bodyShape : Option String := none
  athleticLevel : Option String := none
  measurements : List (String × Json) := []
  updatedAt : Option ℕ := none

/-- Python truthiness of an optional string column value. -/
def strTruthy : Option String → Bool
  | some s => s ≠ ("")
  | none => false

/-- Python `a or b` on two optional string values (`row.get("backend_key") or
row.get("definition_backend_key")`). -/
def pyOrStr (a b : Option String) : Option String :=
  match a with
  | some s => if s = ("") then b else some s
  | none => b

/-- The morph item construction in `_fetch_measurements`, including the LEFT
JOIN against `morph_definitions`. -/
def fetchedMorphOfRow (defs : List (String × Option String)) (row : MorphRow) :
    FetchedMorph :=
  let definitionBackendKey :=
    match defs.lookup row.morphId with
    | some bk => bk
    | none => none
  let backendKey := pyOrStr row.backendKey definitionBackendKey
  { id := row.morphId,
    backendKey := if strTruthy backendKey then backendKey else none,
    sliderValue := row.sliderValue,
    value := row.sliderValue,
    unrealValue := row.unrealValue,
    updatedAt := some row.updatedAt }

/-- Comparator for `morphs.sort(key=lambda item: item["id"])`. -/
def fetchedMorphLe (a b : FetchedMorph) : Prop := strLe a.id b.id

instance fetchedMorphLeDecidable : DecidableRel fetchedMorphLe :=
  fun a b => strLeDecidable a.id b.id

/-- The quick-mode-settings assembly in `_fetch_measurements`: normalize the
measurement values, attach `updatedAt` when the column holds a timestamp, then
collapse to `None` when no dict value is truthy.  The `updatedAt` entry, when
present, is a non-empty ISO string and therefore truthy. -/
def fetchQmsRow (row : QmsRow) : Option FetchedQms :=
  let measurements := match row.measurements with
    | some m => m
    | none => []
  let normalizedMeasurements := measurements.map
    (fun (p : String × Json) => (p.1, match p.2 with
      | .num q => Json.num q
      | v => v))
  let settings : FetchedQms :=
    { bodyShape := row.bodyShape, athleticLevel := row.athleticLevel,
      measurements := normalizedMeasurements, updatedAt := row.updatedAt }
  if strTruthy settings.bodyShape || strTruthy settings.athleticLevel ||
      ! settings.measurements.isEmpty || settings.updatedAt.isSome then
    some settings
  else
    none

/-- The 4-tuple returned by `repository._fetch_measurements`. -/
structure FetchResult where
  basic : List (String × ℚ)
  body : List (String × ℚ)
  morphs : List FetchedMorph
  quickModeSettings : Option FetchedQms

/-- `repository._fetch_measurements`. -/
def fetchMeasurements (db : Db) (avatarId : Uuid) : FetchResult :=
  let basic := (db.basicMeasurements.filter (fun r => r.1 = avatarId)).map
    (fun r => (r.2.1, r.2.2))
  let body := (db.bodyMeasurements.filter (fun r => r.1 = avatarId)).map
    (fun r => (r.2.1, r.2.2))
  let morphs := (db.morphTargets.filter (fun r => r.avatarId = avatarId)).map
    (fetchedMorphOfRow db.morphDefinitions)
  let quickRow := db.quickModeSettings.find? (fun r => r.avatarId = avatarId)
  let quickModeSettings := match quickRow with
    | some row => fetchQmsRow row
    | none => none
  { basic := basic, body := body,
    morphs := List.insertionSort fetchedMorphLe morphs,
    quickModeSettings := quickModeSettings }

/-- The canonical profile view built by `repository._row_to_avatar`
(timestamps stay numeric; `_isoformat` is an injective rendering that the
claims never inspect). -/
structure AvatarView where
  id : String
  userId : String
  name : String
  gender : Option String
  ageRange : Option String
  creationMode : Option String
  source : Option String
  quickMode : Bool
  createdBySession : Option String
  basicMeasurements : List (String × ℚ)
  bodyMeasurements : List (String × ℚ)
  morphTargets : List FetchedMorph
  quickModeSettings : Option FetchedQms
  createdAt : Option ℕ
  updatedAt : Option ℕ

/-- `repository._row_to_avatar`.  A non-`None` settings dict always has keys,
so its Python truthiness is `isSome`. -/
def rowToAvatar (row : AvatarRow) (basic body : List (String × ℚ))
    (morphs : List FetchedMorph) (quickModeSettings : Option FetchedQms) :
    AvatarView :=
  let quickModeFlag := match row.quickMode with
    | some b => b
    | none => false
  let quickModeFlag := if quickModeSettings.isSome then quickModeFlag || true
    else quickModeFlag
  { id := row.id, userId := row.userId, name := row.name,
    gender := row.gender, ageRange := row.ageRange,
    creationMode := row.creationMode, source := row.source,
    quickMode := quickModeFlag, createdBySession := row.createdBySession,
    basicMeasurements := basic, bodyMeasurements := body,
    morphTargets := morphs, quickModeSettings := quickModeSettings,
    createdAt := some row.createdAt, updatedAt := some row.updatedAt }

/-- Hydrate one header row through `_fetch_measurements` + `_row_to_avatar`
(the shape shared by every read path). -/
def assembleAvatar (db : Db) (row : AvatarRow) : AvatarView :=
  let fetched := fetchMeasurements db row.id
  rowToAvatar row fetched.basic fetched.body fetched.morphs
    fetched.quickModeSettings

/-- `ORDER BY created_at, id` on header rows. -/
def headerLe (a b : AvatarRow) : Prop :=
  a.createdAt < b.createdAt ∨ (a.createdAt = b.createdAt ∧ strLe a.id b.id)

instance headerLeDecidable : DecidableRel headerLe :=
  fun a b => inferInstanceAs (Decidable
    (a.createdAt < b.createdAt ∨ (a.createdAt = b.createdAt ∧ strLe a.id b.id)))

/-- The `{userId, limit, count, total, items}` response of `list_avatars`. -/
structure ListResponse where
  userId : String
  limit : ℕ
  count : ℕ
  total : ℕ
  items : List AvatarView

/-- Transaction body of `repository.list_avatars`. -/
def listAvatarsInner (now : ℕ) (userId : String) (limit : ℕ)
    (userContext : Option UserContext) (db : Db) :
    Except RepoError (Db × ListResponse) :=
  let db := ensureUser now userId userContext db
  let rows := List.insertionSort headerLe (db.avatars.filter (fun r => r.userId = userId))
  let items := (rows.take limit).map (assembleAvatar db)
  .ok (db, { userId := userId, limit := limit, count := items.length,
             total := rows.length, items := items })

/-- `repository.list_avatars` (public operation, one transaction). -/
def list_avatars (now : ℕ) (userId : String) (limit : ℕ)
    (userContext : Option UserContext) (db : Db) :
    Except RepoError ListResponse × Db :=
  runTxn (listAvatarsInner now userId limit userContext) db

/-- Transaction body of `repository.get_avatar` (header lookup scoped by both
id and owner in a single predicate). -/
def getAvatarInner (userId : String) (avatarUuid : Uuid) (db : Db) :
    Except RepoError (Db × AvatarView) :=
  match db.avatars.find? (fun r => r.id = avatarUuid && r.userId = userId) with
  | none => .error .notFound
  | some row => .ok (db, assembleAvatar db row)

/-- `repository.get_avatar`: `uuid.UUID(avatar_id)` runs before the
transaction; its `ValueError` is `invalidId`. -/
def get_avatar (userId : String) (avatarId : String) (db : Db) :
    Except RepoError AvatarView × Db :=
  match parseUuid avatarId with
  | none => (.error .invalidId, db)
  | some avatarUuid => runTxn (getAvatarInner userId avatarUuid) db

/-- The stored avatar name: `name.strip() if name.strip() else
"Untitled Avatar"`. -/
def finalAvatarName (name : String) : String :=
  if pyStrip name = ("") then ("Untitled Avatar") else pyStrip name

/-- The header row inserted by `repository.create_avatar` (`INSERT INTO
avatars ... RETURNING ...`). -/
def newAvatarRow (now : ℕ) (freshId : Uuid) (userId : String) (m : Mutation)
    (slot : ℕ) : AvatarRow :=
  { id := freshId, userId := userId, name := finalAvatarName m.name,
    slot := slot, gender := m.gender, ageRange := m.ageRange,
    creationMode := m.creationMode, source := m.source,
    quickMode := some m.quickMode, createdBySession := m.createdBySession,
    createdAt := now, updatedAt := now }

/-- Transaction body of `repository.create_avatar`.  The name-uniqueness
constraint `avatars_user_id_name_key` is checked at insert time and surfaces
as `duplicateName`. -/
def createAvatarInner (now : ℕ) (freshId : Uuid) (userId : String)
    (m : Mutation) (userContext : Option UserContext) (db : Db) :
    Except RepoError (Db × AvatarView) :=
  let db := ensureUser now userId userContext db
  match findAvailableSlot db userId with
  | .error e => .error e
  | .ok slot =>
      if db.avatars.any (fun r =>
          r.userId = userId && r.name = finalAvatarName m.name) then
        .error .duplicateName
      else
        let row := newAvatarRow now freshId userId m slot
        let db := { db with avatars := db.avatars ++ [row] }
        let db := persistMeasurements now freshId m.basicMeasurements
          m.bodyMeasurements m.morphTargets m.quickModeSettings db
        .ok (db, assembleAvatar db row)

/-- `repository.create_avatar` (public operation, one transaction). -/
def create_avatar (now : ℕ) (freshId : Uuid) (userId : String) (m : Mutation)
    (userContext : Option UserContext) (db : Db) :
    Except RepoError AvatarView × Db :=
  runTxn (createAvatarInner now freshId userId m userContext) db

/-- Transaction body of `repository.update_avatar`: owner-scoped lookup, full
header update (slot untouched), wholesale satellite replace. -/
def updateAvatarInner (now : ℕ) (userId : String) (avatarUuid : Uuid)
    (m : Mutation) (userContext : Option UserContext) (db : Db) :
    Except RepoError (Db × AvatarView) :=
  let db := ensureUser now userId userContext db
  match db.avatars.find? (fun r => r.id = avatarUuid && r.userId = userId) with
  | none => .error .notFound
  | some row =>
      let avatarName := finalAvatarName m.name
      if db.avatars.any (fun r =>
          r.userId = userId && r.name = avatarName && r.id ≠ avatarUuid) then
        .error .duplicateName
      else
        let updated : AvatarRow :=
          { row with
            name := avatarName, gender := m.gender,
            ageRange := m.ageRange, creationMode := m.creationMode,
            source := m.source, quickMode := some m.quickMode,
            createdBySession := m.createdBySession, updatedAt := now }
        let db := { db with
          avatars :=
            db.avatars.map (fun r => if r.id = avatarUuid then updated else r) }
        let db := persistMeasurements now avatarUuid m.basicMeasurements
          m.bodyMeasurements m.morphTargets m.quickModeSettings db
        .ok (db, assembleAvatar db updated)

/-- `repository.update_avatar` (public operation, one transaction;
`uuid.UUID` runs first). -/
def update_avatar (now : ℕ) (userId : String) (avatarId : String)
    (m : Mutation) (userContext : Option UserContext) (db : Db) :
    Except RepoError AvatarView × Db :=
  match parseUuid avatarId with
  | none => (.error .invalidId, db)
  | some avatarUuid => runTxn (updateAvatarInner now userId avatarUuid m userContext) db

/-- Transaction body of `repository.delete_avatar`: owner-scoped existence
check, then satellite deletes, then the header delete. -/
def deleteAvatarInner (userId : String) (avatarUuid : Uuid) (db : Db) :
    Except RepoError (Db × Unit) :=
  if db.avatars.any (fun r => r.id = avatarUuid && r.userId = userId) then
    .ok
      ({ db with
          basicMeasurements := db.basicMeasurements.filter (fun r => r.1 ≠ avatarUuid),
          bodyMeasurements := db.bodyMeasurements.filter (fun r => r.1 ≠ avatarUuid),
          morphTargets := db.morphTargets.filter (fun r => r.avatarId ≠ avatarUuid),
          quickModeSettings := db.quickModeSettings.filter (fun r => r.avatarId ≠ avatarUuid),
          avatars := db.avatars.filter (fun r =>
            ! (r.id = avatarUuid && r.userId = userId)) }, ())
  else
    .error .notFound

/-- `repository.delete_avatar` (public operation, one transaction;
`uuid.UUID` runs first). -/
def delete_avatar (userId : String) (avatarId : String) (db : Db) :
    Except RepoError Unit × Db :=
  match parseUuid avatarId with
  | none => (.error .invalidId, db)
  | some avatarUuid => runTxn (deleteAvatarInner userId avatarUuid) db

/-- The exception-to-HTTP mapping of `routes._apply_payload` /
`routes.get_avatar` / `routes.delete_avatar`. -/
def repoErrorToApi : RepoError → ApiError
  | .duplicateName => .conflict ("Avatar name must be unique per user.")
  | .quotaExceeded => .conflict ("User has reached the maximum of five avatars.")
  | .notFound => .notFound ("Avatar not found.")
  | .invalidId => .badRequest ("Avatar identifier is invalid.")

/-- `routes._apply_payload`: normalize, then create or update, translating
repository errors; validation failures never reach the repository. -/
def applyPayload (now : ℕ) (freshId : Uuid) (userId : String) (payload : Json)
    (avatarId : Option String) (userContext : Option UserContext) (db : Db) :
    Except ApiError AvatarView × Db :=
  match normalizePayload payload with
  | .error e => (.error e, db)
  | .ok m =>
      let result := match avatarId with
        | none => create_avatar now freshId userId m userContext db
        | some aid => update_avatar now userId aid m userContext db
      (result.1.mapError repoErrorToApi, result.2)

/-- Route handler `GET /users/(user_id)/avatars/(avatar_id)`. -/
def getAvatarRoute (db : Db) (userId : String) (avatarId : String) :
    Except ApiError AvatarView × Db :=
  let result := get_avatar userId avatarId db
  (result.1.mapError repoErrorToApi, result.2)

/-- Route handler `DELETE /users/(user_id)/avatars/(avatar_id)`. -/
def deleteAvatarRoute (db : Db) (userId : String) (avatarId : String) :
    Except ApiError Unit × Db :=
  let result := delete_avatar userId avatarId db
  (result.1.mapError repoErrorToApi, result.2)

/-! Library lemmas about the Python-model helpers. -/

theorem dropWhile_idem (p : Char → Bool) (l : List Char) :
    (l.dropWhile p).dropWhile p = l.dropWhile p := by
  induction l with
  | nil => rfl
  | cons a t ih =>
      by_cases h : p a
      · rw [List.dropWhile_cons_of_pos h]; exact ih
      · rw [List.dropWhile_cons_of_neg h, List.dropWhile_cons_of_neg h]

theorem dropWhile_of_append_eq (p : Char → Bool) (l t d : List Char)
    (happ : l ++ t = d) (hd : d.dropWhile p = d) : l.dropWhile p = l := by
  cases l with
  | nil => rfl
  | cons a l₂ =>
      have ha : ¬ p a := by
        intro hpa
        have hdrop : d.dropWhile p = (l₂ ++ t).dropWhile p := by
          rw [← happ, List.cons_append, List.dropWhile_cons_of_pos hpa]
        have hlen : ((l₂ ++ t).dropWhile p).length ≤ (l₂ ++ t).length :=
          ((l₂ ++ t).dropWhile_sublist p).length_le
        rw [hd] at hdrop
        have hlen2 : d.length ≤ (l₂ ++ t).length := by rw [hdrop]; exact hlen
        have hlen3 : d.length = (l₂ ++ t).length + 1 := by
          rw [← happ]; simp
        omega
      rw [List.dropWhile_cons_of_neg ha]

theorem pyStripList_idem (l : List Char) :
    pyStripList (pyStripList l) = pyStripList l := by
  unfold pyStripList
  set d := l.dropWhile isPySpace with hdDef
  have hd : d.dropWhile isPySpace = d := dropWhile_idem isPySpace l
  set r := d.reverse.dropWhile isPySpace with hrDef
  have hr : r.dropWhile isPySpace = r := dropWhile_idem isPySpace d.reverse
  have hpre : r.reverse ++ (d.reverse.takeWhile isPySpace).reverse = d := by
    rw [← List.reverse_append, List.takeWhile_append_dropWhile isPySpace d.reverse,
      List.reverse_reverse]
  have hrrev : r.reverse.dropWhile isPySpace = r.reverse :=
    dropWhile_of_append_eq isPySpace r.reverse
      (d.reverse.takeWhile isPySpace).reverse d hpre hd
  rw [hrrev, List.reverse_reverse, hr]

theorem pyStrip_idem (s : String) : pyStrip (pyStrip s) = pyStrip s := by
  unfold pyStrip
  exact congrArg String.mk (pyStripList_idem s.data)

theorem char_toNat_inj (a b : Char) (h : a.toNat = b.toNat) : a = b := by
  apply Char.ext
  apply UInt32.ext
  exact h

theorem listLeB_trans :
    ∀ as bs cs, listLeB as bs = true → listLeB bs cs = true →
      listLeB as cs = true := by
  intro as
  induction as with
  | nil => intro bs cs _ _; rfl
  | cons a as ih =>
      intro bs cs hab hbc
      cases bs with
      | nil => simp [listLeB] at hab
      | cons b bs =>
          cases cs with
          | nil => simp [listLeB] at hbc
          | cons c cs =>
              simp only [listLeB] at hab hbc ⊢
              by_cases h1 : a = b
              · subst h1
                by_cases h2 : a = c
                · subst h2
                  rw [if_pos rfl] at *
                  exact ih bs cs (by simpa using hab) (by simpa using hbc)
                · rw [if_pos rfl] at hab
                  rw [if_neg h2] at hbc ⊢
                  exact hbc
              · rw [if_neg h1] at hab
                have hlt1 : a.toNat < b.toNat := by simpa using hab
                by_cases h2 : b = c
                · subst h2
                  rw [if_neg h1]
                  simpa using hlt1
                · rw [if_neg h2] at hbc
                  have hlt2 : b.toNat < c.toNat := by simpa using hbc
                  have h3 : ¬ a = c := by
                    intro h
                    subst h
                    omega
                  rw [if_neg h3]
                  simp
                  omega

theorem listLeB_total : ∀ as bs, listLeB as bs || listLeB bs as := by
  intro as
  induction as with
  | nil => intro bs; simp [listLeB]
  | cons a as ih =>
      intro bs
      cases bs with
      | nil => simp [listLeB]
      | cons b bs =>
          simp only [listLeB]
          by_cases h : a = b
          · subst h
            rw [if_pos rfl, if_pos rfl]
            exact ih bs
          · have h2 : ¬ b = a := fun hba => h hba.symm
            rw [if_neg h, if_neg h2]
            have : a.toNat ≠ b.toNat := fun heq => h (char_toNat_inj a b heq)
            simp only [Bool.or_eq_true, decide_eq_true_eq]
            omega

theorem strLeB_trans (a b c : String) (hab : strLeB a b = true)
    (hbc : strLeB b c = true) : strLeB a c = true :=
  listLeB_trans a.data b.data c.data hab hbc

theorem strLeB_total (a b : String) : strLeB a b || strLeB b a :=
  listLeB_total a.data b.data

instance strLeIsTrans : IsTrans String strLe :=
  ⟨fun a b c hab hbc => strLeB_trans a b c hab hbc⟩

instance strLeIsTotal : IsTotal String strLe :=
  ⟨fun a b => by
    have := strLeB_total a b
    rcases Bool.or_eq_true_iff.mp this with h | h
    · exact Or.inl h
    · exact Or.inr h⟩

instance morphKeyLeIsTrans : IsTrans (String × MorphEntry) morphKeyLe :=
  ⟨fun a b c hab hbc => strLeB_trans a.1 b.1 c.1 hab hbc⟩

instance morphKeyLeIsTotal : IsTotal (String × MorphEntry) morphKeyLe :=
  ⟨fun a b => strLeIsTotal.total a.1 b.1⟩

theorem lookup_cons_self {α : Type} (k : String) (v : α)
    (tl : List (String × α)) : List.lookup k ((k, v) :: tl) = some v := by
  simp [List.lookup]

theorem lookup_cons_ne {α : Type} (k k₂ : String) (h : ¬ k₂ = k) (v : α)
    (tl : List (String × α)) :
    List.lookup k₂ ((k, v) :: tl) = List.lookup k₂ tl := by
  have hb : (k₂ == k) = false := beq_eq_false_iff_ne.mpr h
  simp [List.lookup, hb]

theorem dictInsert_lookup {α : Type} (d : List (String × α)) (k k₂ : String)
    (v : α) :
    (dictInsert d k v).lookup k₂ =
      if k₂ = k then some v else d.lookup k₂ := by
  induction d with
  | nil =>
      by_cases h : k₂ = k
      · simp [dictInsert, h, lookup_cons_self]
      · rw [dictInsert, lookup_cons_ne k k₂ h, if_neg h]
  | cons hd tl ih =>
      obtain ⟨k₁, v₁⟩ := hd
      by_cases hk : k₁ = k
      · subst hk
        simp only [dictInsert, if_pos rfl]
        by_cases hk2 : k₂ = k₁
        · subst hk2; simp [lookup_cons_self]
        · simp [lookup_cons_ne _ _ hk2, hk2]
      · simp only [dictInsert, if_neg hk]
        by_cases hhd : k₂ = k₁
        · subst hhd
          have hk2 : ¬ k₂ = k := hk
          simp [lookup_cons_self, hk2]
        · rw [lookup_cons_ne _ _ hhd, lookup_cons_ne _ _ hhd, ih]

theorem mapExcept_ok_of_id {α : Type} (f : α → Except ApiError α)
    (l : List α) (h : ∀ x ∈ l, f x = .ok x) : mapExcept f l = .ok l := by
  induction l with
  | nil => rfl
  | cons a rest ih =>
      rw [mapExcept, h a (List.mem_cons_self a rest),
        ih (fun x hx => h x (List.mem_cons_of_mem a hx))]

theorem mapExcept_mem {α β : Type} (f : α → Except ApiError β) (l : List α)
    (out : List β) (h : mapExcept f l = .ok out) :
    ∀ b ∈ out, ∃ a ∈ l, f a = .ok b := by
  induction l generalizing out with
  | nil =>
      rw [mapExcept] at h
      cases h
      intro b hb
      exact absurd hb (List.not_mem_nil b)
  | cons a rest ih =>
      rw [mapExcept] at h
      cases hfa : f a with
      | error e => rw [hfa] at h; exact absurd h (by simp)
      | ok b₀ =>
          rw [hfa] at h
          cases hrest : mapExcept f rest with
          | error e => rw [hrest] at h; exact absurd h (by simp)
          | ok bs =>
              rw [hrest] at h
              cases h
              intro b hb
              rcases List.mem_cons.mp hb with hb | hb
              · exact ⟨a, List.mem_cons_self a rest, hb ▸ hfa⟩
              · rcases ih bs hrest b hb with ⟨a₂, ha₂, hfa₂⟩
                exact ⟨a₂, List.mem_cons_of_mem a ha₂, hfa₂⟩

theorem dictInsert_keys {α : Type} (d : List (String × α)) (k : String)
    (v : α) :
    (dictInsert d k v).map Prod.fst =
      if k ∈ d.map Prod.fst then d.map Prod.fst
      else d.map Prod.fst ++ [k] := by
  induction d with
  | nil => simp [dictInsert]
  | cons hd tl ih =>
      obtain ⟨k₁, v₁⟩ := hd
      by_cases hk : k₁ = k
      · subst hk
        simp [dictInsert]
      · have hne : ¬ k = k₁ := fun h => hk h.symm
        simp only [dictInsert, if_neg hk, List.map_cons, List.mem_cons]
        rw [ih]
        by_cases hmem : k ∈ tl.map Prod.fst
        · simp [hmem, hne]
        · simp [hmem, hne]

theorem dictInsert_keys_nodup {α : Type} (d : List (String × α)) (k : String)
    (v : α) (h : (d.map Prod.fst).Nodup) :
    ((dictInsert d k v).map Prod.fst).Nodup := by
  rw [dictInsert_keys]
  by_cases hmem : k ∈ d.map Prod.fst
  · rwa [if_pos hmem]
  · rw [if_neg hmem]
    refine List.Nodup.append h (List.nodup_singleton k) ?_
    intro a ha hk
    rw [List.mem_singleton] at hk
    exact hmem (hk ▸ ha)

theorem dictInsert_mem {α : Type} (d : List (String × α)) (k : String) (v : α)
    (p : String × α) (hp : p ∈ dictInsert d k v) : p ∈ d ∨ p = (k, v) := by
  induction d with
  | nil =>
      rw [dictInsert] at hp
      exact Or.inr (List.mem_singleton.mp hp)
  | cons hd tl ih =>
      rw [dictInsert] at hp
      by_cases hk : hd.1 = k
      · rw [if_pos hk] at hp
        rcases List.mem_cons.mp hp with h | h
        · exact Or.inr h
        · exact Or.inl (List.mem_cons_of_mem hd h)
      · rw [if_neg hk] at hp
        rcases List.mem_cons.mp hp with h | h
        · exact Or.inl (h ▸ List.mem_cons_self hd tl)
        · rcases ih h with h₂ | h₂
          · exact Or.inl (List.mem_cons_of_mem hd h₂)
          · exact Or.inr h₂

theorem collapseMorphs_go (items : List MorphEntry)
    (acc : List (String × MorphEntry)) :
    ∀ p ∈ items.foldl (fun acc item => dictInsert acc item.id item) acc,
      (p.1 = p.2.id ∧ p.2 ∈ items) ∨ p ∈ acc := by
  induction items generalizing acc with
  | nil => intro p hp; exact Or.inr hp
  | cons e rest ih =>
      intro p hp
      simp only [List.foldl_cons] at hp
      rcases ih (dictInsert acc e.id e) p hp with h | h
      · exact Or.inl ⟨h.1, List.mem_cons_of_mem e h.2⟩
      · rcases dictInsert_mem acc e.id e p h with h₂ | h₂
        · exact Or.inr h₂
        · subst h₂
          exact Or.inl ⟨rfl, List.mem_cons_self e rest⟩

/-- Every pair of the duplicate-id collapse carries its entry's id as key and
an entry of the input. -/
theorem collapseMorphs_mem (items : List MorphEntry)
    (p : String × MorphEntry) (hp : p ∈ collapseMorphs items) :
    p.1 = p.2.id ∧ p.2 ∈ items := by
  rcases collapseMorphs_go items [] p hp with h | h
  · exact h
  · exact absurd h (List.not_mem_nil p)

theorem collapseMorphs_go_keys_nodup (items : List MorphEntry)
    (acc : List (String × MorphEntry)) (h : (acc.map Prod.fst).Nodup) :
    ((items.foldl (fun acc item => dictInsert acc item.id item) acc).map
      Prod.fst).Nodup := by
  induction items generalizing acc with
  | nil => exact h
  | cons e rest ih =>
      simp only [List.foldl_cons]
      exact ih (dictInsert acc e.id e) (dictInsert_keys_nodup acc e.id e h)

/-- The collapsed association list has pairwise-distinct keys. -/
theorem collapseMorphs_keys_nodup (items : List MorphEntry) :
    ((collapseMorphs items).map Prod.fst).Nodup :=
  collapseMorphs_go_keys_nodup items [] List.nodup_nil

theorem collapseMorphs_go_lookup (items : List MorphEntry)
    (acc : List (String × MorphEntry)) (k : String) :
    (items.foldl (fun acc item => dictInsert acc item.id item) acc).lookup k =
      ((items.reverse.find? (fun e => e.id = k)).map (fun e => e)).orElse
        (fun _ => acc.lookup k) := by
  induction items generalizing acc with
  | nil => simp
  | cons e rest ih =>
      simp only [List.foldl_cons, List.reverse_cons]
      rw [ih (dictInsert acc e.id e), List.find?_append]
      cases hfind : rest.reverse.find? (fun e => e.id = k) with
      | some e₂ => simp [hfind]
      | none =>
          simp only [hfind, Option.none_or, Option.map, Option.none_orElse]
          by_cases hk : e.id = k
          · have : List.find? (fun e => decide (e.id = k)) [e] = some e := by
              simp [List.find?, hk]
            rw [this]
            simp [dictInsert_lookup, hk]
          · have hnone : List.find? (fun e => decide (e.id = k)) [e] = none := by
              simp [List.find?, hk]
            have hk2 : ¬ k = e.id := fun h => hk h.symm
            rw [hnone]
            simp [dictInsert_lookup, hk2]

/-- Looking up an id in the collapsed mapping yields the last input entry
with that id (duplicates collapse to the last-seen entry). -/
theorem collapseMorphs_lookup (items : List MorphEntry) (k : String) :
    (collapseMorphs items).lookup k =
      items.reverse.find? (fun e => e.id = k) := by
  have := collapseMorphs_go_lookup items [] k
  rw [collapseMorphs] at *
  rw [this]
  cases hfind : items.reverse.find? (fun e => e.id = k) <;> simp [hfind]

/-- Invariants of every entry produced by `_normalize_morph_entry`: the id is
stripped and non-empty, a stored backend key is stripped and non-empty, and
the `value` key mirrors `sliderValue`. -/
def goodEntry (e : MorphEntry) : Prop :=
  pyStrip e.id = e.id ∧ e.id ≠ ("") ∧
    (∀ b, e.backendKey = some b → pyStrip b = b ∧ b ≠ ("")) ∧
    e.value = e.sliderValue

theorem morphRawValues_backendKey (idStr : String) (rawValue : Json)
    (t : Option String × Option ℚ × Option ℚ)
    (h : morphRawValues idStr rawValue = .ok t) :
    ∀ b, t.1 = some b → pyStrip b = b ∧ b ≠ ("") := by
  intro b hb
  cases rawValue <;> simp only [morphRawValues] at h
  case obj fields =>
    split at h
    · exact absurd h (by simp)
    · split at h
      · exact absurd h (by simp)
      · injection h with h
        subst h
        simp only [morphBackendKey] at hb
        split at hb
        · exact absurd hb (by simp)
        · split at hb
          · exact absurd hb (by simp)
          · injection hb with hb
            subst hb
            refine ⟨pyStrip_idem _, by assumption⟩
  all_goals first
    | (injection h with h; subst h; exact absurd hb (by simp))
    | exact absurd h (by simp)

theorem buildMorphEntry_good (idStr : String)
    (t : Option String × Option ℚ × Option ℚ)
    (hid : pyStrip idStr = idStr) (hne : idStr ≠ (""))
    (hbk : ∀ b, t.1 = some b → pyStrip b = b ∧ b ≠ ("")) :
    goodEntry (buildMorphEntry idStr t) := by
  obtain ⟨bk, sv, uv⟩ := t
  refine ⟨hid, hne, ?_, rfl⟩
  intro b hb
  cases bk with
  | none => exact absurd hb (by simp [buildMorphEntry])
  | some b₀ =>
      have hbeq : (buildMorphEntry idStr (some b₀, sv, uv)).backendKey =
          if b₀ ≠ ("") then some b₀ else none := rfl
      rw [hbeq] at hb
      by_cases hb₀ : b₀ ≠ ("")
      · rw [if_pos hb₀] at hb
        injection hb with hb
        subst hb
        exact hbk b₀ rfl
      · rw [if_neg hb₀] at hb
        exact absurd hb (by simp)

theorem normalizeMorphEntry_good (morphId rawValue : Json) (e : MorphEntry)
    (h : normalizeMorphEntry morphId rawValue = .ok e) : goodEntry e := by
  cases morphId <;> simp only [normalizeMorphEntry] at h
  case null => exact absurd h (by simp)
  all_goals {
    split at h
    · exact absurd h (by simp)
    · rename_i hne
      split at h
      · exact absurd h (by simp)
      · rename_i values hvalues
        injection h with h
        subst h
        exact buildMorphEntry_good _ values (pyStrip_idem _) hne
          (morphRawValues_backendKey _ rawValue values hvalues) }

theorem normalizeMorphListEntry_good (entry : Json) (e : MorphEntry)
    (h : normalizeMorphListEntry entry = .ok e) : goodEntry e := by
  unfold normalizeMorphListEntry at h
  split at h
  · split at h
    · exact absurd h (by simp)
    · exact normalizeMorphEntry_good _ _ e h
  · rename_i a b
    exact normalizeMorphEntry_good a b e h
  · exact absurd h (by simp)

theorem normalizeMorphTargets_ok_inv (payload : Json) (l : List MorphEntry)
    (h : normalizeMorphTargets payload = .ok l) :
    ∃ items, (∀ e ∈ items, goodEntry e) ∧
      l = (List.insertionSort morphKeyLe (collapseMorphs items)).map Prod.snd := by
  cases payload <;>
    simp only [normalizeMorphTargets, bind, Except.bind, pure] at h
  case null =>
      injection h with h
      exact ⟨[], fun e he => absurd he (List.not_mem_nil e), h.symm⟩
  case obj fields =>
      cases hX : mapExcept (fun p => normalizeMorphEntry (.str p.1) p.2) fields with
      | error e => rw [hX] at h; exact absurd h (by simp)
      | ok items =>
          rw [hX] at h
          injection h with h
          refine ⟨items, ?_, h.symm⟩
          intro e he
          rcases mapExcept_mem _ fields items hX e he with ⟨a, _, hfa⟩
          exact normalizeMorphEntry_good _ _ e hfa
  case arr entries =>
      cases hX : mapExcept normalizeMorphListEntry entries with
      | error e => rw [hX] at h; exact absurd h (by simp)
      | ok items =>
          rw [hX] at h
          injection h with h
          refine ⟨items, ?_, h.symm⟩
          intro e he
          rcases mapExcept_mem _ entries items hX e he with ⟨a, _, hfa⟩
          exact normalizeMorphListEntry_good a e hfa
  all_goals exact absurd h (by simp)

theorem morphPairs_sorted_strict (items : List MorphEntry) :
    (List.insertionSort morphKeyLe (collapseMorphs items)).Pairwise
      (fun p q => morphKeyLe p q ∧ p.1 ≠ q.1) := by
  have hsorted : (List.insertionSort morphKeyLe (collapseMorphs items)).Pairwise
      (fun p q => morphKeyLe p q) :=
    List.sorted_insertionSort morphKeyLe (collapseMorphs items)
  have hperm : List.Perm (List.insertionSort morphKeyLe (collapseMorphs items))
      (collapseMorphs items) :=
    List.perm_insertionSort morphKeyLe (collapseMorphs items)
  have hnodup : ((List.insertionSort morphKeyLe (collapseMorphs items)).map
      Prod.fst).Nodup :=
    (hperm.map Prod.fst).nodup_iff.mpr (collapseMorphs_keys_nodup items)
  have hne : (List.insertionSort morphKeyLe (collapseMorphs items)).Pairwise
      (fun p q => p.1 ≠ q.1) :=
    (List.pairwise_map).mp hnodup
  exact hsorted.and hne

/-- Every entry list produced by `_normalize_morph_targets` is strictly
sorted by ascending id (non-strict lexicographic order plus distinctness). -/
theorem normalizeMorphTargets_sorted (payload : Json) (l : List MorphEntry)
    (h : normalizeMorphTargets payload = .ok l) :
    l.Pairwise (fun a b => strLeB a.id b.id = true ∧ a.id ≠ b.id) := by
  rcases normalizeMorphTargets_ok_inv payload l h with ⟨items, _, hl⟩
  subst hl
  have hpairs := morphPairs_sorted_strict items
  have hkey : ∀ p ∈ List.insertionSort morphKeyLe (collapseMorphs items),
      (p : String × MorphEntry).1 = p.2.id := by
    intro p hp
    have hmem : p ∈ collapseMorphs items :=
      (List.mem_insertionSort morphKeyLe).mp hp
    exact (collapseMorphs_mem items p hmem).1
  refine (List.pairwise_map).mpr ?_
  refine List.Pairwise.imp_of_mem ?_ hpairs
  intro p q hp hq hlt
  rw [← hkey p hp, ← hkey q hq]
  exact hlt

theorem normalizeMorphTargets_good (payload : Json) (l : List MorphEntry)
    (h : normalizeMorphTargets payload = .ok l) : ∀ e ∈ l, goodEntry e := by
  rcases normalizeMorphTargets_ok_inv payload l h with ⟨items, hgood, hl⟩
  subst hl
  intro e he
  rcases List.mem_map.mp he with ⟨p, hp, hpe⟩
  have hmem : p ∈ collapseMorphs items :=
    (List.mem_insertionSort morphKeyLe).mp hp
  exact hpe ▸ hgood p.2 (collapseMorphs_mem items p hmem).2

theorem dictInsert_not_mem_append {α : Type} (d : List (String × α))
    (k : String) (v : α) (h : k ∉ d.map Prod.fst) :
    dictInsert d k v = d ++ [(k, v)] := by
  induction d with
  | nil => rfl
  | cons hd tl ih =>
      have hk : ¬ hd.1 = k := by
        intro hk
        exact h (List.mem_map.mpr ⟨hd, List.mem_cons_self hd tl, hk⟩)
      rw [dictInsert, if_neg hk, List.cons_append,
        ih (fun hmem => h (List.mem_cons_of_mem _ hmem))]

theorem collapseMorphs_go_of_nodup (items : List MorphEntry)
    (acc : List (String × MorphEntry))
    (hnodup : (items.map (fun e => e.id)).Nodup)
    (hacc : ∀ e ∈ items, e.id ∉ acc.map Prod.fst) :
    items.foldl (fun acc item => dictInsert acc item.id item) acc =
      acc ++ items.map (fun e => (e.id, e)) := by
  induction items generalizing acc with
  | nil => simp
  | cons e rest ih =>
      simp only [List.foldl_cons, List.map_cons]
      have hcons := hnodup
      rw [List.map_cons] at hcons
      have h1 : e.id ∉ rest.map (fun e => e.id) := (List.nodup_cons.mp hcons).1
      have h2 : (rest.map (fun e => e.id)).Nodup := (List.nodup_cons.mp hcons).2
      rw [dictInsert_not_mem_append acc e.id e
        (hacc e (List.mem_cons_self e rest))]
      rw [ih (acc ++ [(e.id, e)]) h2 ?_]
      · simp
      · intro e₂ he₂
        rw [List.map_append]
        intro hmem
        rcases List.mem_append.mp hmem with hmem | hmem
        · exact hacc e₂ (List.mem_cons_of_mem e he₂) hmem
        · have : e₂.id = e.id := by simpa using hmem
          exact h1 (this ▸ List.mem_map.mpr ⟨e₂, he₂, rfl⟩)

/-- With pairwise-distinct ids the collapse is the identity pairing. -/
theorem collapseMorphs_of_nodup (items : List MorphEntry)
    (hnodup : (items.map (fun e => e.id)).Nodup) :
    collapseMorphs items = items.map (fun e => (e.id, e)) := by
  have := collapseMorphs_go_of_nodup items [] hnodup
    (fun e _ hmem => by simp at hmem)
  simpa [collapseMorphs] using this

theorem mapExcept_map_ok {α β : Type} (f : β → Except ApiError α)
    (g : α → β) (l : List α) (h : ∀ x ∈ l, f (g x) = .ok x) :
    mapExcept f (l.map g) = .ok l := by
  induction l with
  | nil => rfl
  | cons a rest ih =>
      rw [List.map_cons, mapExcept, h a (List.mem_cons_self a rest),
        ih (fun x hx => h x (List.mem_cons_of_mem a hx))]

/-- The JSON rendering of a normalized morph-target entry (the dict built at
the end of `_normalize_morph_entry`: a key appears only when its value is
set, and `value` mirrors `sliderValue`). -/
def morphEntryToJson (e : MorphEntry) : Json :=
  .obj ([(("id"), Json.str e.id)] ++
    (match e.backendKey with
      | some b => [(("backendKey"), Json.str b)]
      | none => []) ++
    (match e.sliderValue with
      | some q => [(("sliderValue"), Json.num q), (("value"), Json.num q)]
      | none => []) ++
    (match e.unrealValue with
      | some q => [(("unrealValue"), Json.num q)]
      | none => []))

theorem normalizeMorphListEntry_toJson (e : MorphEntry) (hg : goodEntry e) :
    normalizeMorphListEntry (morphEntryToJson e) = .ok e := by
  obtain ⟨i, bk, sv, v, uv⟩ := e
  obtain ⟨hid, hne, hbk, hval⟩ := hg
  simp only at hid hne hbk hval
  subst hval
  cases bk with
  | none =>
      cases v <;> cases uv <;>
        simp [morphEntryToJson, normalizeMorphListEntry, normalizeMorphEntry,
          morphRawValues, morphSliderCandidate, morphBackendKey,
          buildMorphEntry, Json.getD, Json.hasKey, List.lookup, pyStr,
          normalizeOptionalFloat, hid, hne]
  | some b =>
      have hb := hbk b rfl
      cases v <;> cases uv <;>
        simp [morphEntryToJson, normalizeMorphListEntry, normalizeMorphEntry,
          morphRawValues, morphSliderCandidate, morphBackendKey,
          buildMorphEntry, Json.getD, Json.hasKey, List.lookup, pyStr,
          normalizeOptionalFloat, hid, hne, hb.1, hb.2]

theorem normalizeMorphTargets_idem (payload : Json) (l : List MorphEntry)
    (h : normalizeMorphTargets payload = .ok l) :
    normalizeMorphTargets (Json.arr (l.map morphEntryToJson)) = .ok l := by
  have hgood := normalizeMorphTargets_good payload l h
  have hsorted := normalizeMorphTargets_sorted payload l h
  have hids : (l.map (fun e => e.id)).Nodup :=
    (List.pairwise_map).mpr (hsorted.imp (fun h => h.2))
  have hmap : mapExcept normalizeMorphListEntry (l.map morphEntryToJson) =
      .ok l :=
    mapExcept_map_ok normalizeMorphListEntry morphEntryToJson l
      (fun e he => normalizeMorphListEntry_toJson e (hgood e he))
  have hcollapse : collapseMorphs l = l.map (fun e => (e.id, e)) :=
    collapseMorphs_of_nodup l hids
  have hsortedPairs : (l.map (fun e => (e.id, e))).Pairwise
      (fun p q => morphKeyLe p q) := by
    refine (List.pairwise_map).mpr ?_
    exact hsorted.imp (fun h => h.1)
  have hms : List.insertionSort morphKeyLe (l.map (fun e => (e.id, e))) =
      l.map (fun e => (e.id, e)) :=
    List.Sorted.insertionSort_eq hsortedPairs
  simp only [normalizeMorphTargets, bind, Except.bind, hmap, hcollapse, hms]
  simp only [List.map_map]
  have : (Prod.snd ∘ fun e : MorphEntry => (e.id, e)) = id := rfl
  rw [this, List.map_id]

/-- C4: morph-target normalization is deterministic and idempotent: every
accepted payload yields a list strictly sorted by ascending id (so two
equivalent payloads normalize identically); duplicate ids collapse to the
last-seen entry (`collapseMorphs` lookup returns the last input entry with the
id); re-normalizing an already-normalized sequence returns it unchanged; and
the mapping `(b : 1, a : 2)` and the equivalent object list both normalize to
the ordered sequence `a ↦ 2.0, b ↦ 1.0`. -/
theorem morph_normalization_deterministic_idempotent (payload : Json)
    (l : List MorphEntry) :
    (normalizeMorphTargets payload = .ok l →
      l.Pairwise (fun a b => strLeB a.id b.id = true ∧ a.id ≠ b.id) ∧
      normalizeMorphTargets (Json.arr (l.map morphEntryToJson)) = .ok l) ∧
    (∀ (items : List MorphEntry) (k : String),
      (collapseMorphs items).lookup k =
        items.reverse.find? (fun e => e.id = k)) ∧
    normalizeMorphTargets (.obj [(("b"), .num 1), (("a"), .num 2)]) =
      .ok [{ id := ("a"), sliderValue := some 2, value := some 2 },
           { id := ("b"), sliderValue := some 1, value := some 1 }] ∧
    normalizeMorphTargets
        (.arr [.obj [(("id"), .str ("b")), (("value"), .num 1)],
               .obj [(("id"), .str ("a")), (("value"), .num 2)]]) =
      .ok [{ id := ("a"), sliderValue := some 2, value := some 2 },
           { id := ("b"), sliderValue := some 1, value := some 1 }] := by
  refine ⟨?_, collapseMorphs_lookup, by decide, by decide⟩
  intro h
  exact ⟨normalizeMorphTargets_sorted payload l h,
    normalizeMorphTargets_idem payload l h⟩

/-- Witness for C4 at the concrete example payload. -/
theorem morph_normalization_deterministic_idempotent_witness :
    ([{ id := ("a"), sliderValue := some 2, value := some 2 },
      { id := ("b"), sliderValue := some 1, value := some 1 }] :
        List MorphEntry).Pairwise
          (fun a b => strLeB a.id b.id = true ∧ a.id ≠ b.id) ∧
    normalizeMorphTargets
        (Json.arr (([{ id := ("a"), sliderValue := some 2, value := some 2 },
          { id := ("b"), sliderValue := some 1, value := some 1 }] :
            List MorphEntry).map morphEntryToJson)) =
      .ok [{ id := ("a"), sliderValue := some 2, value := some 2 },
           { id := ("b"), sliderValue := some 1, value := some 1 }] :=
  (morph_normalization_deterministic_idempotent
    (.obj [(("b"), .num 1), (("a"), .num 2)])
    [{ id := ("a"), sliderValue := some 2, value := some 2 },
     { id := ("b"), sliderValue := some 1, value := some 1 }]).1
    (by decide)

theorem normalizeEnum_mem (value : Json) (field : String)
    (allowed : List String) (c : String)
    (h : normalizeEnum value field allowed = .ok (some c)) : c ∈ allowed := by
  cases value <;> simp only [normalizeEnum] at h
  case str s =>
    split at h
    · exact absurd h (by simp)
    · split at h
      · injection h with h
        injection h with h
        subst h
        assumption
      · exact absurd h (by simp)
  case null => exact absurd h (by simp)
  all_goals exact absurd h (by simp)

theorem dictInsert_mem_forall {α : Type} (P : String × α → Prop)
    (d : List (String × α)) (k : String) (v : α)
    (hd : ∀ p ∈ d, P p) (hkv : P (k, v)) :
    ∀ p ∈ dictInsert d k v, P p := by
  intro p hp
  rcases dictInsert_mem d k v p hp with h | h
  · exact hd p h
  · exact h ▸ hkv

theorem normalizeMeasurementsLoop_inv (sectionName : String)
    (fields : List (String × Json)) :
    ∀ (out₀ : List (String × ℚ)) (sts₀ : List (String × String))
      (out : List (String × ℚ)) (sts : List (String × String)),
      (∀ p ∈ out₀, p.1 ≠ ("creationMode")) →
      (∀ p ∈ sts₀, p.1 = ("creationMode") ∧ p.2 ∈ _ALLOWED_CREATION_MODES) →
      normalizeMeasurementsLoop sectionName fields out₀ sts₀ = .ok (out, sts) →
      (∀ p ∈ out, p.1 ≠ ("creationMode")) ∧
      (∀ p ∈ sts, p.1 = ("creationMode") ∧ p.2 ∈ _ALLOWED_CREATION_MODES) := by
  induction fields with
  | nil =>
      intro out₀ sts₀ out sts hout hsts h
      rw [normalizeMeasurementsLoop] at h
      injection h with h
      injection h with h1 h2
      subst h1; subst h2
      exact ⟨hout, hsts⟩
  | cons field rest ih =>
      intro out₀ sts₀ out sts hout hsts h
      obtain ⟨key, value⟩ := field
      rw [normalizeMeasurementsLoop] at h
      by_cases hkey : key = ("creationMode")
      · rw [if_pos hkey] at h
        cases hcm : normalizeCreationMode value with
        | error e => rw [hcm] at h; exact absurd h (by simp)
        | ok status =>
            rw [hcm] at h
            cases status with
            | some c =>
                refine ih out₀ (dictInsert sts₀ key c) out sts hout ?_ h
                exact dictInsert_mem_forall _ sts₀ key c hsts
                  ⟨hkey, normalizeEnum_mem value _ _ c hcm⟩
            | none => exact ih out₀ sts₀ out sts hout hsts h
      · rw [if_neg hkey] at h
        cases hv : pyFloatOfNum value with
        | some q =>
            rw [hv] at h
            exact ih (dictInsert out₀ key q) sts₀ out sts
              (dictInsert_mem_forall _ out₀ key q hout hkey) hsts h
        | none =>
            rw [hv] at h
            exact absurd h (by simp)

/-- Measurement-section normalization never stores the reserved key and only
stores validated creation modes in the status mapping. -/
theorem normalizeMeasurements_inv (sectionJson : Json) (sectionName : String)
    (out : List (String × ℚ)) (sts : List (String × String))
    (h : normalizeMeasurements sectionJson sectionName = .ok (out, sts)) :
    (∀ p ∈ out, p.1 ≠ ("creationMode")) ∧
    (∀ p ∈ sts, p.1 = ("creationMode") ∧ p.2 ∈ _ALLOWED_CREATION_MODES) := by
  cases sectionJson <;> simp only [normalizeMeasurements] at h
  case null =>
      injection h with h
      injection h with h1 h2
      subst h1; subst h2
      simp
  case obj fields =>
      exact normalizeMeasurementsLoop_inv sectionName fields [] [] out sts
        (by simp) (by simp) h
  all_goals exact absurd h (by simp)

/-- C3: the reserved key `creationMode` inside a measurement mapping is
removed from the stored mapping and re-validated as the creation-mode enum
(`height: 172.4, creationMode: "Preset"` stores `height: 172.4` with
creation mode `preset`); a top-level `creationMode` that disagrees with the
embedded one (in either section) is rejected with the conflict error naming
`creationMode`. -/
theorem creation_mode_extraction_and_conflict :
    (∀ (sectionJson : Json) (sectionName : String) (out : List (String × ℚ))
        (sts : List (String × String)),
      normalizeMeasurements sectionJson sectionName = .ok (out, sts) →
      (∀ p ∈ out, p.1 ≠ ("creationMode")) ∧
      (∀ p ∈ sts, p.1 = ("creationMode") ∧ p.2 ∈ _ALLOWED_CREATION_MODES)) ∧
    ((normalizePayload (.obj [(("basicMeasurements"),
        .obj [(("height"), .num (mkRat 1724 10)),
              (("creationMode"), .str ("Preset"))])])).map
      (fun m => (m.basicMeasurements, m.creationMode)) =
      .ok ([(("height"), (mkRat 1724 10))], some ("preset"))) ∧
    (∀ (t e : String) (hq : ℚ) (c1 c2 : String),
      normalizeCreationMode (.str t) = .ok (some c1) →
      normalizeCreationMode (.str e) = .ok (some c2) →
      c1 ≠ c2 →
      normalizePayload (.obj [(("creationMode"), .str t),
          (("basicMeasurements"),
            .obj [(("height"), .num hq), (("creationMode"), .str e)])]) =
        .error (.badRequest ("creationMode provided in measurements does not match the top-level value."))) ∧
    (∀ (t e : String) (c1 c2 : String),
      normalizeCreationMode (.str t) = .ok (some c1) →
      normalizeCreationMode (.str e) = .ok (some c2) →
      c1 ≠ c2 →
      normalizePayload (.obj [(("creationMode"), .str t),
          (("bodyMeasurements"),
            .obj [(("creationMode"), .str e)])]) =
        .error (.badRequest ("creationMode provided in measurements does not match the top-level value."))) := by
  refine ⟨normalizeMeasurements_inv, by decide, ?_, ?_⟩
  · intro t e hq c1 c2 h1 h2 hne
    simp [normalizePayload, Json.getD, List.lookup, normalizeEnum,
      normalizeQuickModeSettings, resolveQuickMode, normalizeOptionalString,
      normalizeMeasurements, normalizeMeasurementsLoop, pyFloatOfNum, dictInsert,
      normalizeMorphTargets, bind, Except.bind, pure, Except.pure, h1, h2, hne]
  · intro t e c1 c2 h1 h2 hne
    simp [normalizePayload, Json.getD, List.lookup, normalizeEnum,
      normalizeQuickModeSettings, resolveQuickMode, normalizeOptionalString,
      normalizeMeasurements, normalizeMeasurementsLoop, pyFloatOfNum, dictInsert,
      normalizeMorphTargets, bind, Except.bind, pure, Except.pure, h1, h2, hne]

/-- Witness for C3: concrete extraction and a concrete top-level/embedded
conflict (`manual` vs `preset`). -/
theorem creation_mode_extraction_and_conflict_witness :
    ((∀ p ∈ ([(("height"), (mkRat 1724 10))] : List (String × ℚ)),
        p.1 ≠ ("creationMode")) ∧
      (∀ p ∈ ([(("creationMode"), ("preset"))] : List (String × String)),
        p.1 = ("creationMode") ∧ p.2 ∈ _ALLOWED_CREATION_MODES)) ∧
    normalizePayload (.obj [(("creationMode"), .str ("Manual")),
        (("basicMeasurements"),
          .obj [(("height"), .num (mkRat 1724 10)),
                (("creationMode"), .str ("Preset"))])]) =
      .error (.badRequest ("creationMode provided in measurements does not match the top-level value.")) := by
  constructor
  · exact creation_mode_extraction_and_conflict.1
      (.obj [(("height"), .num (mkRat 1724 10)),
             (("creationMode"), .str ("Preset"))])
      ("basicMeasurements") [(("height"), (mkRat 1724 10))]
      [(("creationMode"), ("preset"))] (by decide)
  · exact creation_mode_extraction_and_conflict.2.2.1 ("Manual") ("Preset")
      (mkRat 1724 10) ("manual") ("preset") (by decide) (by decide) (by decide)

/-- C5: on write the effective quickMode is (explicit payload boolean,
defaulting to false) OR (normalized quick-mode settings non-null); a
non-boolean explicit value is rejected naming quickMode; on read the returned
quickMode is (stored flag, NULL read as false) OR (settings record present). -/
theorem quick_mode_resolution :
    (∀ s : Option QuickModeSettings,
      resolveQuickMode .null s = .ok s.isSome) ∧
    (∀ (b : Bool) (s : Option QuickModeSettings),
      resolveQuickMode (.bool b) s = .ok (b || s.isSome)) ∧
    (∀ (v : Json) (s : Option QuickModeSettings), v ≠ .null →
      (∀ b, v ≠ .bool b) →
      resolveQuickMode v s =
        .error (.badRequest ("quickMode must be a boolean value."))) ∧
    (∀ (row : AvatarRow) (basic body : List (String × ℚ))
        (morphs : List FetchedMorph) (qms : Option FetchedQms),
      (rowToAvatar row basic body morphs qms).quickMode =
        (row.quickMode.getD false || qms.isSome)) ∧
    normalizePayload (.obj [(("quickMode"), .num 1)]) =
      .error (.badRequest ("quickMode must be a boolean value.")) := by
  refine ⟨fun s => rfl, fun b s => rfl, ?_, ?_, by decide⟩
  · intro v s hnull hbool
    cases v with
    | null => exact absurd rfl hnull
    | bool b => exact absurd rfl (hbool b)
    | num q => rfl
    | str str => rfl
    | arr l => rfl
    | obj l => rfl
  · intro row basic body morphs qms
    cases hq : row.quickMode with
    | none => cases qms <;> simp [rowToAvatar, hq]
    | some b => cases qms <;> simp [rowToAvatar, hq]

/-- Witness for C5 at concrete inputs: settings-present default, explicit
false OR settings, non-boolean rejection, and a stored-flag read. -/
theorem quick_mode_resolution_witness :
    resolveQuickMode .null (some { bodyShape := some ("slim") }) = .ok true ∧
    resolveQuickMode (.bool false) none = .ok false ∧
    resolveQuickMode (.num 1) none =
      .error (.badRequest ("quickMode must be a boolean value.")) ∧
    (rowToAvatar
        { id := ("a"), userId := ("u"), name := ("n"), slot := 1,
          quickMode := some false } [] [] []
        (some { bodyShape := some ("slim") })).quickMode = true :=
  ⟨quick_mode_resolution.1 (some { bodyShape := some ("slim") }),
   quick_mode_resolution.2.1 false none,
   quick_mode_resolution.2.2.1 (.num 1) none
     (fun h => Json.noConfusion h) (fun _ h => Json.noConfusion h),
   quick_mode_resolution.2.2.2.1
     { id := ("a"), userId := ("u"), name := ("n"), slot := 1,
       quickMode := some false } [] [] []
     (some { bodyShape := some ("slim") })⟩

/-- C9: when both measurement sections embed a creationMode and no top-level
one is supplied, the basicMeasurements value silently wins (even when the two
embedded values disagree — no conflict is raised across sections); with a
top-level value agreeing with basicMeasurements, a differing bodyMeasurements
value still raises no conflict, because the check only compares the embedded
value against the top-level field. -/
theorem embedded_creation_mode_precedence :
    (∀ (v1 v2 c1 c2 : String),
      normalizeCreationMode (.str v1) = .ok (some c1) →
      normalizeCreationMode (.str v2) = .ok (some c2) →
      (normalizePayload (.obj
          [(("basicMeasurements"), .obj [(("creationMode"), .str v1)]),
           (("bodyMeasurements"), .obj [(("creationMode"), .str v2)])])).map
        (fun m => m.creationMode) = .ok (some c1)) ∧
    (∀ (t v1 v2 c1 c2 : String),
      normalizeCreationMode (.str t) = .ok (some c1) →
      normalizeCreationMode (.str v1) = .ok (some c1) →
      normalizeCreationMode (.str v2) = .ok (some c2) →
      c2 ≠ c1 →
      (normalizePayload (.obj
          [(("creationMode"), .str t),
           (("basicMeasurements"), .obj [(("creationMode"), .str v1)]),
           (("bodyMeasurements"), .obj [(("creationMode"), .str v2)])])).map
        (fun m => m.creationMode) = .ok (some c1)) := by
  have hnull : normalizeCreationMode Json.null = .ok none := rfl
  constructor
  · intro v1 v2 c1 c2 h1 h2
    simp [normalizePayload, Json.getD, List.lookup, normalizeEnum,
      normalizeQuickModeSettings, resolveQuickMode, normalizeOptionalString,
      normalizeMeasurements, normalizeMeasurementsLoop, pyFloatOfNum,
      dictInsert, normalizeMorphTargets, collapseMorphs, bind, Except.bind,
      pure, Except.pure, Except.map, hnull, h1, h2]
  · intro t v1 v2 c1 c2 ht h1 h2 hne
    simp [normalizePayload, Json.getD, List.lookup, normalizeEnum,
      normalizeQuickModeSettings, resolveQuickMode, normalizeOptionalString,
      normalizeMeasurements, normalizeMeasurementsLoop, pyFloatOfNum,
      dictInsert, normalizeMorphTargets, collapseMorphs, bind, Except.bind,
      pure, Except.pure, Except.map, ht, h1, h2, hne]

/-- Witness for C9: basic embeds `Preset`, body embeds `scan` (which
disagree), no conflict, `preset` wins; likewise with an agreeing top-level
`manual` and a differing body value. -/
theorem embedded_creation_mode_precedence_witness :
    (normalizePayload (.obj
        [(("basicMeasurements"), .obj [(("creationMode"), .str ("Preset"))]),
         (("bodyMeasurements"), .obj [(("creationMode"), .str ("scan"))])])).map
      (fun m => m.creationMode) = .ok (some ("preset")) ∧
    (normalizePayload (.obj
        [(("creationMode"), .str ("manual")),
         (("basicMeasurements"), .obj [(("creationMode"), .str ("Manual"))]),
         (("bodyMeasurements"), .obj [(("creationMode"), .str ("scan"))])])).map
      (fun m => m.creationMode) = .ok (some ("manual")) :=
  ⟨embedded_creation_mode_precedence.1 ("Preset") ("scan") ("preset") ("scan")
     (by decide) (by decide),
   embedded_creation_mode_precedence.2 ("manual") ("Manual") ("scan")
     ("manual") ("scan") (by decide) (by decide) (by decide) (by decide)⟩

theorem runTxn_ok {ε α : Type} (inner : Db → Except ε (Db × α)) (db db2 : Db)
    (a : α) (h : runTxn inner db = (.ok a, db2)) : inner db = .ok (db2, a) := by
  unfold runTxn at h
  split at h
  · rename_i db3 a3 heq
    injection h with h1 h2
    injection h1 with h1
    rw [heq, h1, h2]
  · rename_i e heq
    injection h with h1 h2
    exact absurd h1 (by simp)

theorem runTxn_error {ε α : Type} (inner : Db → Except ε (Db × α))
    (db db2 : Db) (e : ε) (h : runTxn inner db = (.error e, db2)) : db2 = db := by
  unfold runTxn at h
  split at h
  · rename_i db3 a3 heq
    injection h with h1 h2
    exact absurd h1 (by simp)
  · rename_i e2 heq
    injection h with h1 h2
    exact h2.symm

theorem getAvatarInner_ok (userId : String) (avatarUuid : Uuid) (db db2 : Db)
    (av : AvatarView) (h : getAvatarInner userId avatarUuid db = .ok (db2, av)) :
    ∃ row, av = assembleAvatar db2 row := by
  unfold getAvatarInner at h
  split at h
  · exact absurd h (by simp)
  · rename_i row heq
    injection h with h
    injection h with h1 h2
    exact ⟨row, by rw [← h2, h1]⟩

theorem createAvatarInner_ok (now : ℕ) (freshId : Uuid) (userId : String)
    (m : Mutation) (ctx : Option UserContext) (db db2 : Db) (av : AvatarView)
    (h : createAvatarInner now freshId userId m ctx db = .ok (db2, av)) :
    ∃ row, av = assembleAvatar db2 row := by
  simp only [createAvatarInner] at h
  split at h
  · exact absurd h (by simp)
  · split at h
    · exact absurd h (by simp)
    · injection h with h
      injection h with h1 h2
      exact ⟨_, by rw [← h2, h1]⟩

theorem updateAvatarInner_ok (now : ℕ) (userId : String) (avatarUuid : Uuid)
    (m : Mutation) (ctx : Option UserContext) (db db2 : Db) (av : AvatarView)
    (h : updateAvatarInner now userId avatarUuid m ctx db = .ok (db2, av)) :
    ∃ row, av = assembleAvatar db2 row := by
  simp only [updateAvatarInner] at h
  split at h
  · exact absurd h (by simp)
  · split at h
    · exact absurd h (by simp)
    · injection h with h
      injection h with h1 h2
      exact ⟨_, by rw [← h2, h1]⟩

/-- The morph items assembled by `_fetch_measurements` set `value` exactly
when `sliderValue` is set, to the same number. -/
theorem fetchMeasurements_value_mirror (db : Db) (avatarId : Uuid) :
    ∀ item ∈ (fetchMeasurements db avatarId).morphs,
      item.value = item.sliderValue := by
  intro item hitem
  unfold fetchMeasurements at hitem
  simp only at hitem
  have hmem := (List.mem_insertionSort fetchedMorphLe).mp hitem
  rcases List.mem_map.mp hmem with ⟨row, _, hrow⟩
  rw [← hrow]
  rfl

theorem get_avatar_ok (userId avatarId : String) (db db2 : Db)
    (av : AvatarView) (h : get_avatar userId avatarId db = (.ok av, db2)) :
    ∃ row, av = assembleAvatar db2 row := by
  unfold get_avatar at h
  split at h
  · injection h with h1 h2
    exact absurd h1 (by simp)
  · rename_i u heq
    exact getAvatarInner_ok userId u db db2 av (runTxn_ok _ db db2 av h)

theorem create_avatar_ok (now : ℕ) (freshId : Uuid) (userId : String)
    (m : Mutation) (ctx : Option UserContext) (db db2 : Db) (av : AvatarView)
    (h : create_avatar now freshId userId m ctx db = (.ok av, db2)) :
    ∃ row, av = assembleAvatar db2 row :=
  createAvatarInner_ok now freshId userId m ctx db db2 av
    (runTxn_ok _ db db2 av h)

theorem update_avatar_ok (now : ℕ) (userId avatarId : String) (m : Mutation)
    (ctx : Option UserContext) (db db2 : Db) (av : AvatarView)
    (h : update_avatar now userId avatarId m ctx db = (.ok av, db2)) :
    ∃ row, av = assembleAvatar db2 row := by
  unfold update_avatar at h
  split at h
  · injection h with h1 h2
    exact absurd h1 (by simp)
  · rename_i u heq
    exact updateAvatarInner_ok now userId u m ctx db db2 av
      (runTxn_ok _ db db2 av h)

theorem list_avatars_ok (now : ℕ) (userId : String) (limit : ℕ)
    (ctx : Option UserContext) (db db2 : Db) (resp : ListResponse)
    (h : list_avatars now userId limit ctx db = (.ok resp, db2)) :
    ∀ av ∈ resp.items, ∃ row, av = assembleAvatar db2 row := by
  have hin := runTxn_ok _ db db2 resp h
  unfold listAvatarsInner at hin
  injection hin with hin
  injection hin with h1 h2
  intro av hav
  rw [← h2] at hav
  simp only at hav
  rcases List.mem_map.mp hav with ⟨row, _, hrow⟩
  exact ⟨row, by rw [← hrow, h1]⟩

/-- C10: in every morph target returned by a read path (`_fetch_measurements`
and the hydrated results of Get, List, Create, Update), the `value` key is
present iff `sliderValue` is present and carries the same number; both are
omitted together. -/
theorem morph_value_mirrors_slider :
    (∀ (db : Db) (avatarId : Uuid),
      ∀ item ∈ (fetchMeasurements db avatarId).morphs,
        item.value = item.sliderValue) ∧
    (∀ (userId avatarId : String) (db db2 : Db) (av : AvatarView),
      get_avatar userId avatarId db = (.ok av, db2) →
      ∀ item ∈ av.morphTargets, item.value = item.sliderValue) ∧
    (∀ (now : ℕ) (userId : String) (limit : ℕ) (ctx : Option UserContext)
        (db db2 : Db) (resp : ListResponse),
      list_avatars now userId limit ctx db = (.ok resp, db2) →
      ∀ av ∈ resp.items, ∀ item ∈ av.morphTargets,
        item.value = item.sliderValue) ∧
    (∀ (now : ℕ) (freshId : Uuid) (userId : String) (m : Mutation)
        (ctx : Option UserContext) (db db2 : Db) (av : AvatarView),
      create_avatar now freshId userId m ctx db = (.ok av, db2) →
      ∀ item ∈ av.morphTargets, item.value = item.sliderValue) ∧
    (∀ (now : ℕ) (userId avatarId : String) (m : Mutation)
        (ctx : Option UserContext) (db db2 : Db) (av : AvatarView),
      update_avatar now userId avatarId m ctx db = (.ok av, db2) →
      ∀ item ∈ av.morphTargets, item.value = item.sliderValue) := by
  refine ⟨fetchMeasurements_value_mirror, ?_, ?_, ?_, ?_⟩
  · intro userId avatarId db db2 av h item hitem
    rcases get_avatar_ok userId avatarId db db2 av h with ⟨row, hrow⟩
    rw [hrow] at hitem
    exact fetchMeasurements_value_mirror db2 row.id item hitem
  · intro now userId limit ctx db db2 resp h av hav item hitem
    rcases list_avatars_ok now userId limit ctx db db2 resp h av hav with
      ⟨row, hrow⟩
    rw [hrow] at hitem
    exact fetchMeasurements_value_mirror db2 row.id item hitem
  · intro now freshId userId m ctx db db2 av h item hitem
    rcases create_avatar_ok now freshId userId m ctx db db2 av h with
      ⟨row, hrow⟩
    rw [hrow] at hitem
    exact fetchMeasurements_value_mirror db2 row.id item hitem
  · intro now userId avatarId m ctx db db2 av h item hitem
    rcases update_avatar_ok now userId avatarId m ctx db db2 av h with
      ⟨row, hrow⟩
    rw [hrow] at hitem
    exact fetchMeasurements_value_mirror db2 row.id item hitem

/-- A canonical UUID string for concrete witnesses. -/
def sampleUuid : Uuid := ("00000000-0000-0000-0000-000000000001")

/-- A concrete header row for witnesses. -/
def sampleRow : AvatarRow :=
  { id := sampleUuid, userId := ("u"), name := ("n"), slot := 1 }

/-- A concrete database for witnesses: one avatar with one morph target. -/
def sampleDb : Db :=
  { avatars := [sampleRow],
    morphTargets := [{ avatarId := sampleUuid, morphId := ("m"),
                       sliderValue := some (mkRat 1 2), updatedAt := 7 }] }

/-- Witness for C10: the morph target fetched from the sample database and
the one in a hydrated Get both mirror `sliderValue` into `value`. -/
theorem morph_value_mirrors_slider_witness :
    ({ id := ("m"), sliderValue := some (mkRat 1 2),
       value := some (mkRat 1 2), updatedAt := some 7 } : FetchedMorph).value =
      ({ id := ("m"), sliderValue := some (mkRat 1 2),
         value := some (mkRat 1 2), updatedAt := some 7 } : FetchedMorph).sliderValue ∧
    (∃ q : ℚ,
      ({ id := ("m"), sliderValue := some (mkRat 1 2),
         value := some (mkRat 1 2), updatedAt := some 7 } : FetchedMorph).value = some q) :=
  ⟨morph_value_mirrors_slider.2.1 ("u") sampleUuid sampleDb sampleDb
    (assembleAvatar sampleDb sampleRow) rfl
    { id := ("m"), sliderValue := some (mkRat 1 2),
      value := some (mkRat 1 2), updatedAt := some 7 } (by decide),
   ⟨mkRat 1 2, rfl⟩⟩

/-- A stored quick-mode-settings row whose three data fields are all empty
but whose `updated_at` column holds a timestamp. -/
def emptyTimestampedQmsRow : QmsRow :=
  { avatarId := sampleUuid, createdAt := some 0, updatedAt := some 5 }

/-- A database holding only that quick-mode-settings row (and its header). -/
def emptyQmsDb : Db :=
  { avatars := [sampleRow], quickModeSettings := [emptyTimestampedQmsRow] }

/-- Counterexample to C6 as stated: a stored record whose every data field
(bodyShape, athleticLevel, measurements) is empty or falsy is NOT returned as
null when the row carries an `updated_at` timestamp — the truthy `updatedAt`
ISO string defeats the `any()` emptiness check, so the read returns an object. -/
theorem qms_collapse_counterexample :
    strTruthy emptyTimestampedQmsRow.bodyShape = false ∧
    strTruthy emptyTimestampedQmsRow.athleticLevel = false ∧
    emptyTimestampedQmsRow.measurements.getD [] = [] ∧
    ((fetchMeasurements emptyQmsDb sampleUuid).quickModeSettings).isSome = true := by
  refine ⟨rfl, rfl, rfl, rfl⟩

/-- C6 amended: on read, a stored quick-mode-settings record whose every data
field is empty or falsy is returned as null only when the row's `updated_at`
is also absent; when `updated_at` holds a timestamp the record is returned as
an object (carrying `updatedAt`), not as null.  The first matching row is the
one `_fetch_measurements` consults. -/
theorem qms_collapse_amended :
    (∀ (row : QmsRow),
      strTruthy row.bodyShape = false →
      strTruthy row.athleticLevel = false →
      row.measurements.getD [] = [] →
      row.updatedAt = none →
      fetchQmsRow row = none) ∧
    (∀ (row : QmsRow) (t : ℕ),
      strTruthy row.bodyShape = false →
      strTruthy row.athleticLevel = false →
      row.measurements.getD [] = [] →
      row.updatedAt = some t →
      fetchQmsRow row = some
        { bodyShape := row.bodyShape, athleticLevel := row.athleticLevel,
          measurements := [], updatedAt := some t }) ∧
    (∀ (db : Db) (avatarId : Uuid) (row : QmsRow),
      db.quickModeSettings.find? (fun r => r.avatarId = avatarId) = some row →
      (fetchMeasurements db avatarId).quickModeSettings = fetchQmsRow row) := by
  refine ⟨?_, ?_, ?_⟩
  · intro row hb ha hm hu
    unfold fetchQmsRow
    cases hms : row.measurements with
    | none => simp [hb, ha, hu, hms]
    | some m =>
        rw [hms] at hm
        simp only [Option.getD] at hm
        subst hm
        simp [hb, ha, hu, hms]
  · intro row t hb ha hm hu
    unfold fetchQmsRow
    cases hms : row.measurements with
    | none => simp [hb, ha, hu, hms]
    | some m =>
        rw [hms] at hm
        simp only [Option.getD] at hm
        subst hm
        simp [hb, ha, hu, hms]
  · intro db avatarId row hfind
    unfold fetchMeasurements
    simp only [hfind]

/-- Witness for the amended C6 at concrete rows: with `updated_at` NULL the
empty record collapses to null; with a timestamp it is returned as an object. -/
theorem qms_collapse_amended_witness :
    fetchQmsRow { avatarId := sampleUuid } = none ∧
    fetchQmsRow emptyTimestampedQmsRow = some
      { bodyShape := none, athleticLevel := none, measurements := [],
        updatedAt := some 5 } :=
  ⟨qms_collapse_amended.1 { avatarId := sampleUuid } rfl rfl rfl rfl,
   qms_collapse_amended.2.1 emptyTimestampedQmsRow 5 rfl rfl rfl rfl⟩

/-- C7: for Get and Delete, a malformed (non-UUID) id string fails with the
Invalid error (never a generic fault), and an id that parses but matches no
row owned by the requesting user — whether absent or owned by another user,
the single lookup predicate covers both — fails with NotFound; the state is
untouched in both cases. -/
theorem get_delete_error_taxonomy :
    (∀ (db : Db) (userId avatarId : String), parseUuid avatarId = none →
      getAvatarRoute db userId avatarId =
        (.error (.badRequest ("Avatar identifier is invalid.")), db) ∧
      deleteAvatarRoute db userId avatarId =
        (.error (.badRequest ("Avatar identifier is invalid.")), db)) ∧
    (∀ (db : Db) (userId avatarId : String) (u : Uuid),
      parseUuid avatarId = some u →
      (∀ r ∈ db.avatars, ¬ (r.id = u ∧ r.userId = userId)) →
      getAvatarRoute db userId avatarId =
        (.error (.notFound ("Avatar not found.")), db) ∧
      deleteAvatarRoute db userId avatarId =
        (.error (.notFound ("Avatar not found.")), db)) := by
  constructor
  · intro db userId avatarId hp
    constructor
    · simp [getAvatarRoute, get_avatar, hp, repoErrorToApi, Except.mapError]
    · simp [deleteAvatarRoute, delete_avatar, hp, repoErrorToApi, Except.mapError]
  · intro db userId avatarId u hp hnone
    have hfind : db.avatars.find?
        (fun r => r.id = u && r.userId = userId) = none := by
      rw [List.find?_eq_none]
      intro r hr
      simp only [Bool.and_eq_true, decide_eq_true_eq]
      intro hc
      exact hnone r hr ⟨hc.1, hc.2⟩
    have hany : db.avatars.any
        (fun r => r.id = u && r.userId = userId) = false := by
      rw [List.any_eq_false]
      intro r hr
      simp only [Bool.and_eq_true, decide_eq_true_eq]
      intro hc
      exact hnone r hr ⟨hc.1, hc.2⟩
    constructor
    · simp [getAvatarRoute, get_avatar, hp, runTxn, getAvatarInner, hfind,
        repoErrorToApi, Except.mapError]
    · simp [deleteAvatarRoute, delete_avatar, hp, runTxn, deleteAvatarInner,
        hany, repoErrorToApi, Except.mapError]

/-- Witness for C7: a malformed id and a well-formed id absent from the
store both fail with the exact typed errors on an untouched database. -/
theorem get_delete_error_taxonomy_witness :
    (getAvatarRoute {} ("u") ("not-a-uuid") =
      (.error (.badRequest ("Avatar identifier is invalid.")), {}) ∧
     deleteAvatarRoute {} ("u") ("not-a-uuid") =
      (.error (.badRequest ("Avatar identifier is invalid.")), {})) ∧
    (getAvatarRoute {} ("u") sampleUuid =
      (.error (.notFound ("Avatar not found.")), {}) ∧
     deleteAvatarRoute {} ("u") sampleUuid =
      (.error (.notFound ("Avatar not found.")), {})) :=
  ⟨get_delete_error_taxonomy.1 {} ("u") ("not-a-uuid") (by decide),
   get_delete_error_taxonomy.2 {} ("u") sampleUuid sampleUuid (by decide)
     (fun r hr => absurd hr (List.not_mem_nil r))⟩

instance headerLeIsTrans : IsTrans AvatarRow headerLe :=
  ⟨by
    intro a b c hab hbc
    rcases hab with hab | ⟨hab1, hab2⟩
    · rcases hbc with hbc | ⟨hbc1, hbc2⟩
      · exact Or.inl (Nat.lt_trans hab hbc)
      · exact Or.inl (hbc1 ▸ hab)
    · rcases hbc with hbc | ⟨hbc1, hbc2⟩
      · exact Or.inl (hab1 ▸ hbc)
      · exact Or.inr ⟨hab1.trans hbc1, strLeB_trans a.id b.id c.id hab2 hbc2⟩⟩

instance headerLeIsTotal : IsTotal AvatarRow headerLe :=
  ⟨by
    intro a b
    rcases Nat.lt_trichotomy a.createdAt b.createdAt with h | h | h
    · exact Or.inl (Or.inl h)
    · rcases strLeIsTotal.total a.id b.id with h2 | h2
      · exact Or.inl (Or.inr ⟨h, h2⟩)
      · exact Or.inr (Or.inr ⟨h.symm, h2⟩)
    · exact Or.inr (Or.inl h)⟩

theorem ensureUser_avatars (now : ℕ) (userId : String)
    (ctx : Option UserContext) (db : Db) :
    (ensureUser now userId ctx db).avatars = db.avatars := by
  cases ctx <;> simp only [ensureUser] <;> split <;> rfl

/-- A database with seven profiles for one user, for the concrete List
check. -/
def listDb : Db :=
  { avatars :=
      [{ id := ("00000000-0000-0000-0000-000000000001"), userId := ("u"),
         name := ("n1"), slot := 1, createdAt := 1, updatedAt := 1 },
       { id := ("00000000-0000-0000-0000-000000000002"), userId := ("u"),
         name := ("n2"), slot := 2, createdAt := 2, updatedAt := 2 },
       { id := ("00000000-0000-0000-0000-000000000003"), userId := ("u"),
         name := ("n3"), slot := 3, createdAt := 3, updatedAt := 3 },
       { id := ("00000000-0000-0000-0000-000000000004"), userId := ("u"),
         name := ("n4"), slot := 4, createdAt := 4, updatedAt := 4 },
       { id := ("00000000-0000-0000-0000-000000000005"), userId := ("u"),
         name := ("n5"), slot := 5, createdAt := 5, updatedAt := 5 },
       { id := ("00000000-0000-0000-0000-000000000006"), userId := ("u"),
         name := ("n6"), slot := 1, createdAt := 6, updatedAt := 6 },
       { id := ("00000000-0000-0000-0000-000000000007"), userId := ("u"),
         name := ("n7"), slot := 2, createdAt := 7, updatedAt := 7 }] }

/-- C8: List returns the user's header rows ordered ascending by
`(created_at, id)`, hydrated and truncated to `limit`, with `count` the
truncated length and `total` the untruncated row count; concretely, seven
stored profiles with limit 5 yield `count = 5, total = 7`. -/
theorem list_ordering_truncation_counts :
    (∀ (now : ℕ) (userId : String) (limit : ℕ) (ctx : Option UserContext)
        (db : Db),
      ∃ resp : ListResponse,
        list_avatars now userId limit ctx db =
          (.ok resp, ensureUser now userId ctx db) ∧
        resp.userId = userId ∧ resp.limit = limit ∧
        resp.total =
          (db.avatars.filter (fun r => r.userId = userId)).length ∧
        resp.count = min limit resp.total ∧
        (∃ rows, List.Perm rows
            (db.avatars.filter (fun r => r.userId = userId)) ∧
          rows.Pairwise headerLe ∧
          resp.items = (rows.take limit).map
            (assembleAvatar (ensureUser now userId ctx db)))) ∧
    (list_avatars 0 ("u") 5 none listDb).1.map
      (fun r => (r.count, r.total)) = .ok (5, 7) := by
  constructor
  · intro now userId limit ctx db
    have hAv := ensureUser_avatars now userId ctx db
    refine ⟨_, rfl, rfl, rfl, ?_, ?_, ?_⟩
    · simp only [listAvatarsInner, hAv]
      exact (List.perm_insertionSort headerLe _).length_eq
    · simp only [listAvatarsInner]
      rw [List.length_map, List.length_take,
        (List.perm_insertionSort headerLe _).length_eq]
    · refine ⟨List.insertionSort headerLe
        ((ensureUser now userId ctx db).avatars.filter
          (fun r => r.userId = userId)), ?_, ?_, rfl⟩
      · rw [hAv]
        exact List.perm_insertionSort headerLe _
      · exact List.sorted_insertionSort headerLe _
  · decide

theorem find?_eq_some_of_unique {α : Type} (p : α → Bool) (l : List α)
    (x : α) (hx : x ∈ l) (hpx : p x = true)
    (hothers : ∀ y ∈ l, y ≠ x → p y = false) : l.find? p = some x := by
  induction l with
  | nil => exact absurd hx (List.not_mem_nil x)
  | cons a rest ih =>
      by_cases ha : a = x
      · subst ha
        exact List.find?_cons_of_pos _ hpx
      · have hpa : p a = false :=
          hothers a (List.mem_cons_self a rest) ha
        rw [List.find?_cons_of_neg _ (by simp [hpa])]
        have hx2 : x ∈ rest := by
          rcases List.mem_cons.mp hx with h | h
          · exact absurd h.symm ha
          · exact h
        exact ih hx2 (fun y hy => hothers y (List.mem_cons_of_mem a hy))

theorem mem_usedSlots (db : Db) (userId : String) (s : ℕ) :
    s ∈ usedSlots db userId ↔
      ∃ r ∈ db.avatars, r.userId = userId ∧ r.slot = s := by
  unfold usedSlots
  constructor
  · intro h
    rcases List.mem_map.mp h with ⟨row, hrow, hs⟩
    rcases List.mem_filter.mp hrow with ⟨h1, h2⟩
    exact ⟨row, h1, by simpa using h2, hs⟩
  · rintro ⟨row, h1, h2, h3⟩
    exact List.mem_map.mpr ⟨row, List.mem_filter.mpr ⟨h1, by simpa using h2⟩, h3⟩

theorem persistMeasurements_avatars (now : ℕ) (avatarId : Uuid)
    (basic body : List (String × ℚ)) (morphs : List MorphEntry)
    (qms : Option QuickModeSettings) (db : Db) :
    (persistMeasurements now avatarId basic body morphs qms db).avatars =
      db.avatars := by
  cases qms <;> simp only [persistMeasurements]

theorem ensureUser_usedSlots (now : ℕ) (userId uid2 : String)
    (ctx : Option UserContext) (db : Db) :
    usedSlots (ensureUser now userId ctx db) uid2 = usedSlots db uid2 := by
  unfold usedSlots
  rw [ensureUser_avatars]

/-- C1 part one packaged: with every slot 1..5 in use, Create fails with the
quota error and leaves the state untouched. -/
theorem create_quota_exceeded (now : ℕ) (freshId : Uuid) (userId : String)
    (m : Mutation) (ctx : Option UserContext) (db : Db)
    (h : ∀ s ∈ [1, 2, 3, 4, 5], s ∈ usedSlots db userId) :
    create_avatar now freshId userId m ctx db = (.error .quotaExceeded, db) := by
  have hfind : [1, 2, 3, 4, 5].find?
      (fun s => ! (usedSlots (ensureUser now userId ctx db) userId).contains s) =
      none := by
    rw [List.find?_eq_none]
    intro s hs
    rw [ensureUser_usedSlots]
    simp only [Bool.not_eq_true', Bool.not_eq_false]
    simpa using h s hs
  have hslot : findAvailableSlot (ensureUser now userId ctx db) userId =
      .error .quotaExceeded := by
    unfold findAvailableSlot
    rw [hfind]
  simp only [create_avatar, runTxn, createAvatarInner, hslot]

/-- Success shape of `create_avatar` when a slot is free and the name does
not collide: the new header row is appended and returned. -/
theorem create_avatar_success (now : ℕ) (freshId : Uuid) (userId : String)
    (m : Mutation) (ctx : Option UserContext) (db : Db) (slot : ℕ)
    (hslot : findAvailableSlot (ensureUser now userId ctx db) userId = .ok slot)
    (hdup : (ensureUser now userId ctx db).avatars.any (fun r2 =>
      r2.userId = userId && r2.name = finalAvatarName m.name) = false) :
    ∃ av db2, create_avatar now freshId userId m ctx db = (.ok av, db2) ∧
      db2.avatars = (ensureUser now userId ctx db).avatars ++
        [newAvatarRow now freshId userId m slot] := by
  refine ⟨assembleAvatar
      (persistMeasurements now freshId m.basicMeasurements m.bodyMeasurements
        m.morphTargets m.quickModeSettings
        { ensureUser now userId ctx db with
          avatars := (ensureUser now userId ctx db).avatars ++
            [newAvatarRow now freshId userId m slot] })
      (newAvatarRow now freshId userId m slot),
    persistMeasurements now freshId m.basicMeasurements m.bodyMeasurements
      m.morphTargets m.quickModeSettings
      { ensureUser now userId ctx db with
        avatars := (ensureUser now userId ctx db).avatars ++
          [newAvatarRow now freshId userId m slot] }, ?_, ?_⟩
  · simp only [create_avatar, runTxn, createAvatarInner, hslot, hdup,
      Bool.false_eq_true, if_false]
  · rw [persistMeasurements_avatars]

/-- C1 part two packaged: after deleting one of the five profiles, a
subsequent Create succeeds and the new header row receives exactly the freed
slot. -/
theorem delete_then_create_reuses_slot (db : Db) (now2 : ℕ) (freshId : Uuid)
    (userId avatarId : String) (m : Mutation) (ctx2 : Option UserContext)
    (r : AvatarRow)
    (hr : r ∈ db.avatars) (hu : r.userId = userId)
    (hp : parseUuid avatarId = some r.id)
    (hid : ∀ r2 ∈ db.avatars, r2.id = r.id → r2 = r)
    (hslots : ∀ s ∈ [1, 2, 3, 4, 5],
      ∃ r2 ∈ db.avatars, r2.userId = userId ∧ r2.slot = s)
    (huniq : ∀ r2 ∈ db.avatars, r2.userId = userId → r2.slot = r.slot → r2 = r)
    (hrslot : r.slot ∈ [1, 2, 3, 4, 5])
    (hname : ∀ r2 ∈ db.avatars, r2.userId = userId →
      r2.name = finalAvatarName m.name → r2.id = r.id) :
    ∃ db1, delete_avatar userId avatarId db = (.ok (), db1) ∧
      ∃ av db2, create_avatar now2 freshId userId m ctx2 db1 = (.ok av, db2) ∧
        ∃ nr ∈ db2.avatars, nr.id = freshId ∧ nr.slot = r.slot := by
  have hany : db.avatars.any (fun r2 => r2.id = r.id && r2.userId = userId) = true :=
    List.any_eq_true.mpr ⟨r, hr, by simp [hu]⟩
  have hdel : delete_avatar userId avatarId db =
      (.ok (), { db with
        basicMeasurements := db.basicMeasurements.filter (fun x => x.1 ≠ r.id),
        bodyMeasurements := db.bodyMeasurements.filter (fun x => x.1 ≠ r.id),
        morphTargets := db.morphTargets.filter (fun x => x.avatarId ≠ r.id),
        quickModeSettings := db.quickModeSettings.filter (fun x => x.avatarId ≠ r.id),
        avatars := db.avatars.filter (fun r2 =>
          ! (r2.id = r.id && r2.userId = userId)) }) := by
    simp only [delete_avatar, hp, runTxn, deleteAvatarInner, hany, if_true]
  refine ⟨_, hdel, ?_⟩
  set db1 : Db := { db with
    basicMeasurements := db.basicMeasurements.filter (fun x => x.1 ≠ r.id),
    bodyMeasurements := db.bodyMeasurements.filter (fun x => x.1 ≠ r.id),
    morphTargets := db.morphTargets.filter (fun x => x.avatarId ≠ r.id),
    quickModeSettings := db.quickModeSettings.filter (fun x => x.avatarId ≠ r.id),
    avatars := db.avatars.filter (fun r2 =>
      ! (r2.id = r.id && r2.userId = userId)) } with hdb1
  have hdb1Av : db1.avatars = db.avatars.filter (fun r2 =>
      ! (r2.id = r.id && r2.userId = userId)) := rfl
  have hmemDb1 : ∀ r2, r2 ∈ db1.avatars ↔
      (r2 ∈ db.avatars ∧ ¬ (r2.id = r.id ∧ r2.userId = userId)) := by
    intro r2
    rw [hdb1Av, List.mem_filter]
    constructor
    · rintro ⟨h1, h2⟩
      refine ⟨h1, ?_⟩
      rintro ⟨ha, hb⟩
      simp [ha, hb] at h2
    · rintro ⟨h1, h2⟩
      refine ⟨h1, ?_⟩
      by_cases ha : r2.id = r.id
      · by_cases hb : r2.userId = userId
        · exact absurd ⟨ha, hb⟩ h2
        · simp [ha, hb]
      · simp [ha]
  -- The freed slot is the only free slot, hence the first free slot.
  have hrNotIn : r ∉ db1.avatars := by
    rw [hmemDb1]
    rintro ⟨_, hcon⟩
    exact hcon ⟨rfl, hu⟩
  have hused : ∀ s ∈ [1, 2, 3, 4, 5], s ≠ r.slot →
      s ∈ usedSlots db1 userId := by
    intro s hs hne
    rcases hslots s hs with ⟨r2, hr2, hr2u, hr2s⟩
    have hr2ne : r2 ≠ r := by
      intro h
      exact hne (by rw [← hr2s, h])
    have : r2 ∈ db1.avatars := by
      rw [hmemDb1]
      refine ⟨hr2, ?_⟩
      rintro ⟨hcid, _⟩
      exact hr2ne (hid r2 hr2 hcid)
    exact (mem_usedSlots db1 userId s).mpr ⟨r2, this, hr2u, hr2s⟩
  have hfree : r.slot ∉ usedSlots db1 userId := by
    intro hmem
    rcases (mem_usedSlots db1 userId r.slot).mp hmem with ⟨r2, hr2, hr2u, hr2s⟩
    have hr2db : r2 ∈ db.avatars := ((hmemDb1 r2).mp hr2).1
    have : r2 = r := huniq r2 hr2db hr2u hr2s
    exact hrNotIn (this ▸ hr2)
  set db1e : Db := ensureUser now2 userId ctx2 db1 with hdb1e
  have hface : usedSlots db1e userId = usedSlots db1 userId :=
    ensureUser_usedSlots now2 userId userId ctx2 db1
  have hfind : [1, 2, 3, 4, 5].find?
      (fun s => ! (usedSlots db1e userId).contains s) = some r.slot := by
    refine find?_eq_some_of_unique _ _ r.slot hrslot ?_ ?_
    · show (! (usedSlots db1e userId).contains r.slot) = true
      rw [hface]
      simpa using hfree
    · intro s hs hne
      show (! (usedSlots db1e userId).contains s) = false
      rw [hface]
      simpa using hused s hs hne
  have hslot : findAvailableSlot db1e userId = .ok r.slot := by
    unfold findAvailableSlot
    rw [hfind]
  have hdup : db1e.avatars.any (fun r2 =>
      r2.userId = userId && r2.name = finalAvatarName m.name) = false := by
    rw [List.any_eq_false]
    intro r2 hr2
    have hr2db1 : r2 ∈ db1.avatars := by
      rw [← ensureUser_avatars now2 userId ctx2 db1]
      exact hr2
    simp only [Bool.and_eq_true, decide_eq_true_eq, not_and]
    intro hr2u hr2n
    rcases (hmemDb1 r2).mp hr2db1 with ⟨hr2db, hcon⟩
    exact hcon ⟨hname r2 hr2db hr2u hr2n, hr2u⟩
  rcases create_avatar_success now2 freshId userId m ctx2 db1 r.slot
      (hdb1e ▸ hslot) (hdb1e ▸ hdup) with ⟨av, db2, hcreate, hav⟩
  refine ⟨av, db2, hcreate, newAvatarRow now2 freshId userId m r.slot, ?_, rfl, rfl⟩
  rw [hav]
  exact List.mem_append.mpr (Or.inr (List.mem_singleton.mpr rfl))

/-- The slot returned by `_find_available_slot` is in 1..5, free, and every
smaller slot in 1..5 is taken: it is the lowest free slot. -/
theorem findAvailableSlot_lowest (db : Db) (userId : String) (s0 : ℕ)
    (h : findAvailableSlot db userId = .ok s0) :
    s0 ∈ ([1, 2, 3, 4, 5] : List ℕ) ∧ s0 ∉ usedSlots db userId ∧
      ∀ k ∈ ([1, 2, 3, 4, 5] : List ℕ), k < s0 → k ∈ usedSlots db userId := by
  unfold findAvailableSlot at h
  cases hf : List.find? (fun s => ! (usedSlots db userId).contains s)
      [1, 2, 3, 4, 5] with
  | none => rw [hf] at h; exact absurd h (by simp)
  | some s1 =>
      rw [hf] at h
      injection h with h
      subst h
      by_cases h1 : (1 : ℕ) ∈ usedSlots db userId
      case neg =>
        rw [List.find?_cons_of_pos _ (by simpa using h1)] at hf
        injection hf with hf
        subst hf
        refine ⟨by simp, h1, ?_⟩
        intro k hk hlt
        simp only [List.mem_cons, List.not_mem_nil, or_false] at hk
        omega
      case pos =>
      rw [List.find?_cons_of_neg _ (by simpa using h1)] at hf
      by_cases h2 : (2 : ℕ) ∈ usedSlots db userId
      case neg =>
        rw [List.find?_cons_of_pos _ (by simpa using h2)] at hf
        injection hf with hf
        subst hf
        refine ⟨by simp, h2, ?_⟩
        intro k hk hlt
        simp only [List.mem_cons, List.not_mem_nil, or_false] at hk
        have : k = 1 := by omega
        subst this
        exact h1
      case pos =>
      rw [List.find?_cons_of_neg _ (by simpa using h2)] at hf
      by_cases h3 : (3 : ℕ) ∈ usedSlots db userId
      case neg =>
        rw [List.find?_cons_of_pos _ (by simpa using h3)] at hf
        injection hf with hf
        subst hf
        refine ⟨by simp, h3, ?_⟩
        intro k hk hlt
        simp only [List.mem_cons, List.not_mem_nil, or_false] at hk
        have : k = 1 ∨ k = 2 := by omega
        rcases this with rfl | rfl
        · exact h1
        · exact h2
      case pos =>
      rw [List.find?_cons_of_neg _ (by simpa using h3)] at hf
      by_cases h4 : (4 : ℕ) ∈ usedSlots db userId
      case neg =>
        rw [List.find?_cons_of_pos _ (by simpa using h4)] at hf
        injection hf with hf
        subst hf
        refine ⟨by simp, h4, ?_⟩
        intro k hk hlt
        simp only [List.mem_cons, List.not_mem_nil, or_false] at hk
        have : k = 1 ∨ k = 2 ∨ k = 3 := by omega
        rcases this with rfl | rfl | rfl
        · exact h1
        · exact h2
        · exact h3
      case pos =>
      rw [List.find?_cons_of_neg _ (by simpa using h4)] at hf
      by_cases h5 : (5 : ℕ) ∈ usedSlots db userId
      case neg =>
        rw [List.find?_cons_of_pos _ (by simpa using h5)] at hf
        injection hf with hf
        subst hf
        refine ⟨by simp, h5, ?_⟩
        intro k hk hlt
        simp only [List.mem_cons, List.not_mem_nil, or_false] at hk
        have : k = 1 ∨ k = 2 ∨ k = 3 ∨ k = 4 := by omega
        rcases this with rfl | rfl | rfl | rfl
        · exact h1
        · exact h2
        · exact h3
        · exact h4
      case pos =>
      rw [List.find?_cons_of_neg _ (by simpa using h5)] at hf
      simp at hf

/-- C1: Create assigns the lowest free slot in 1..5 (part one); with all
five slots in use it fails with QuotaExceeded leaving the state untouched
(part two); and after deleting one of the five profiles a subsequent Create
succeeds and its new header row receives exactly the freed slot (part
three). -/
theorem create_slot_assignment :
    (∀ (db : Db) (userId : String) (s0 : ℕ),
      findAvailableSlot db userId = .ok s0 →
      s0 ∈ ([1, 2, 3, 4, 5] : List ℕ) ∧ s0 ∉ usedSlots db userId ∧
        ∀ k ∈ ([1, 2, 3, 4, 5] : List ℕ), k < s0 →
          k ∈ usedSlots db userId) ∧
    (∀ (now : ℕ) (freshId : Uuid) (userId : String) (m : Mutation)
        (ctx : Option UserContext) (db : Db),
      (∀ s ∈ ([1, 2, 3, 4, 5] : List ℕ), s ∈ usedSlots db userId) →
      create_avatar now freshId userId m ctx db =
        (.error .quotaExceeded, db)) ∧
    (∀ (db : Db) (now2 : ℕ) (freshId : Uuid) (userId avatarId : String)
        (m : Mutation) (ctx2 : Option UserContext) (r : AvatarRow),
      r ∈ db.avatars → r.userId = userId →
      parseUuid avatarId = some r.id →
      (∀ r2 ∈ db.avatars, r2.id = r.id → r2 = r) →
      (∀ s ∈ ([1, 2, 3, 4, 5] : List ℕ),
        ∃ r2 ∈ db.avatars, r2.userId = userId ∧ r2.slot = s) →
      (∀ r2 ∈ db.avatars, r2.userId = userId → r2.slot = r.slot → r2 = r) →
      r.slot ∈ ([1, 2, 3, 4, 5] : List ℕ) →
      (∀ r2 ∈ db.avatars, r2.userId = userId →
        r2.name = finalAvatarName m.name → r2.id = r.id) →
      ∃ db1, delete_avatar userId avatarId db = (.ok (), db1) ∧
        ∃ av db2,
          create_avatar now2 freshId userId m ctx2 db1 = (.ok av, db2) ∧
          ∃ nr ∈ db2.avatars, nr.id = freshId ∧ nr.slot = r.slot) :=
  ⟨findAvailableSlot_lowest, create_quota_exceeded,
   delete_then_create_reuses_slot⟩

def quotaRow1 : AvatarRow :=
  { id := ("00000000-0000-0000-0000-000000000001"), userId := ("u"),
    name := ("n1"), slot := 1, createdAt := 1, updatedAt := 1 }

def quotaRow2 : AvatarRow :=
  { id := ("00000000-0000-0000-0000-000000000002"), userId := ("u"),
    name := ("n2"), slot := 2, createdAt := 2, updatedAt := 2 }

def quotaRow3 : AvatarRow :=
  { id := ("00000000-0000-0000-0000-000000000003"), userId := ("u"),
    name := ("n3"), slot := 3, createdAt := 3, updatedAt := 3 }

def quotaRow4 : AvatarRow :=
  { id := ("00000000-0000-0000-0000-000000000004"), userId := ("u"),
    name := ("n4"), slot := 4, createdAt := 4, updatedAt := 4 }

def quotaRow5 : AvatarRow :=
  { id := ("00000000-0000-0000-0000-000000000005"), userId := ("u"),
    name := ("n5"), slot := 5, createdAt := 5, updatedAt := 5 }

/-- A database where user `u` owns five avatars filling slots 1..5. -/
def fullDb : Db :=
  { users := [{ id := ("u") }],
    avatars := [quotaRow1, quotaRow2, quotaRow3, quotaRow4, quotaRow5] }

/-- Witness for C1: on the full database a sixth Create fails with
QuotaExceeded and leaves the state untouched; after deleting the slot-3
avatar, Create succeeds and the new row gets slot 3. -/
theorem create_slot_assignment_witness :
    create_avatar 9 ("00000000-0000-0000-0000-0000000000aa") ("u")
      { name := ("fresh") } none fullDb = (.error .quotaExceeded, fullDb) ∧
    (∃ db1, delete_avatar ("u") ("00000000-0000-0000-0000-000000000003")
        fullDb = (.ok (), db1) ∧
      ∃ av db2, create_avatar 9 ("00000000-0000-0000-0000-0000000000aa")
          ("u") { name := ("fresh") } none db1 = (.ok av, db2) ∧
        ∃ nr ∈ db2.avatars,
          nr.id = ("00000000-0000-0000-0000-0000000000aa") ∧ nr.slot = 3) :=
  ⟨create_slot_assignment.2.1 9 ("00000000-0000-0000-0000-0000000000aa")
     ("u") { name := ("fresh") } none fullDb (by decide),
   create_slot_assignment.2.2 fullDb 9
     ("00000000-0000-0000-0000-0000000000aa") ("u")
     ("00000000-0000-0000-0000-000000000003") { name := ("fresh") } none
     quotaRow3 (by decide) (by decide) (by decide) (by decide) (by decide)
     (by decide) (by decide) (by decide)⟩

theorem get_avatar_rollback (userId avatarId : String) (db : Db)
    (e : RepoError) (db2 : Db)
    (h : get_avatar userId avatarId db = (.error e, db2)) : db2 = db := by
  unfold get_avatar at h
  split at h
  · injection h with h1 h2
    exact h2.symm
  · exact runTxn_error _ db db2 e h

theorem update_avatar_rollback (now : ℕ) (userId avatarId : String)
    (m : Mutation) (ctx : Option UserContext) (db : Db) (e : RepoError)
    (db2 : Db) (h : update_avatar now userId avatarId m ctx db = (.error e, db2)) :
    db2 = db := by
  unfold update_avatar at h
  split at h
  · injection h with h1 h2
    exact h2.symm
  · exact runTxn_error _ db db2 e h

theorem delete_avatar_rollback (userId avatarId : String) (db : Db)
    (e : RepoError) (db2 : Db)
    (h : delete_avatar userId avatarId db = (.error e, db2)) : db2 = db := by
  unfold delete_avatar at h
  split at h
  · injection h with h1 h2
    exact h2.symm
  · exact runTxn_error _ db db2 e h

theorem mapError_pair_error {α : Type} (res : Except RepoError α × Db)
    (e : ApiError) (db2 : Db)
    (h : (res.1.mapError repoErrorToApi, res.2) = (.error e, db2)) :
    ∃ e0, res = (.error e0, db2) := by
  injection h with h1 h2
  cases hc : res.1 with
  | ok av =>
      rw [hc] at h1
      exact absurd h1 (by simp [Except.mapError])
  | error e0 =>
      refine ⟨e0, ?_⟩
      rw [← h2, ← hc]

/-- C2: every public operation runs as one transaction that commits on
success and rolls back on any error: whenever List, Get, Create, Update,
Delete, or the route-level payload application and Get/Delete handlers
return an error, the persisted state equals the state before the operation
— never a half-applied mix. -/
theorem operations_commit_or_rollback :
    (∀ (now : ℕ) (userId : String) (limit : ℕ) (ctx : Option UserContext)
        (db : Db) (e : RepoError) (db2 : Db),
      list_avatars now userId limit ctx db = (.error e, db2) → db2 = db) ∧
    (∀ (userId avatarId : String) (db : Db) (e : RepoError) (db2 : Db),
      get_avatar userId avatarId db = (.error e, db2) → db2 = db) ∧
    (∀ (now : ℕ) (freshId : Uuid) (userId : String) (m : Mutation)
        (ctx : Option UserContext) (db : Db) (e : RepoError) (db2 : Db),
      create_avatar now freshId userId m ctx db = (.error e, db2) → db2 = db) ∧
    (∀ (now : ℕ) (userId avatarId : String) (m : Mutation)
        (ctx : Option UserContext) (db : Db) (e : RepoError) (db2 : Db),
      update_avatar now userId avatarId m ctx db = (.error e, db2) → db2 = db) ∧
    (∀ (userId avatarId : String) (db : Db) (e : RepoError) (db2 : Db),
      delete_avatar userId avatarId db = (.error e, db2) → db2 = db) ∧
    (∀ (now : ℕ) (freshId : Uuid) (userId : String) (payload : Json)
        (avatarId : Option String) (ctx : Option UserContext) (db : Db)
        (e : ApiError) (db2 : Db),
      applyPayload now freshId userId payload avatarId ctx db =
        (.error e, db2) → db2 = db) ∧
    (∀ (db : Db) (userId avatarId : String) (e : ApiError) (db2 : Db),
      getAvatarRoute db userId avatarId = (.error e, db2) → db2 = db) ∧
    (∀ (db : Db) (userId avatarId : String) (e : ApiError) (db2 : Db),
      deleteAvatarRoute db userId avatarId = (.error e, db2) → db2 = db) := by
  refine ⟨?_, ?_, ?_, ?_, ?_, ?_, ?_, ?_⟩
  · intro now userId limit ctx db e db2 h
    exact runTxn_error _ db db2 e h
  · intro userId avatarId db e db2 h
    exact get_avatar_rollback userId avatarId db e db2 h
  · intro now freshId userId m ctx db e db2 h
    exact runTxn_error _ db db2 e h
  · intro now userId avatarId m ctx db e db2 h
    exact update_avatar_rollback now userId avatarId m ctx db e db2 h
  · intro userId avatarId db e db2 h
    exact delete_avatar_rollback userId avatarId db e db2 h
  · intro now freshId userId payload avatarId ctx db e db2 h
    unfold applyPayload at h
    cases hn : normalizePayload payload with
    | error e0 =>
        rw [hn] at h
        injection h with h1 h2
        exact h2.symm
    | ok m =>
        rw [hn] at h
        cases avatarId with
        | none =>
            rcases mapError_pair_error _ e db2 h with ⟨e0, hres⟩
            exact runTxn_error _ db db2 e0 hres
        | some aid =>
            rcases mapError_pair_error _ e db2 h with ⟨e0, hres⟩
            exact update_avatar_rollback now userId aid m ctx db e0 db2 hres
  · intro db userId avatarId e db2 h
    unfold getAvatarRoute at h
    rcases mapError_pair_error _ e db2 h with ⟨e0, hres⟩
    exact get_avatar_rollback userId avatarId db e0 db2 hres
  · intro db userId avatarId e db2 h
    unfold deleteAvatarRoute at h
    rcases mapError_pair_error _ e db2 h with ⟨e0, hres⟩
    exact delete_avatar_rollback userId avatarId db e0 db2 hres

/-- Witness for C2: a failing (quota) create on the full database and a
failing (malformed-id) route delete both leave the state exactly as it was. -/
theorem operations_commit_or_rollback_witness :
    (fullDb : Db) = fullDb ∧ ({} : Db) = ({} : Db) :=
  ⟨operations_commit_or_rollback.2.2.1 9
     ("00000000-0000-0000-0000-0000000000aa") ("u") { name := ("fresh") }
     none fullDb .quotaExceeded fullDb rfl,
   operations_commit_or_rollback.2.2.2.2.2.2.2 {} ("u") ("not-a-uuid")
     (.badRequest ("Avatar identifier is invalid.")) {} rfl⟩

end Fitspace
